import Mathlib

/-!
# DW1000Ranging: the ranging protocol engine of `src/DW1000Ranging.cpp`

A shallow embedding of `DW1000RangingClass` and theorems about it.

* C `float` quantities that are only stored and copied are kept as their
  four-byte object representation (`Float32`); the bias curves are evaluated
  over exact rationals.
* The radio driver `DW1000`, the time type `DW1000Time`, the peer record
  `DW1000Device` and the constants of `DW1000Ranging.h` are not part of the
  source file: constants and external operations are parameters
  (`Consts`, `Platform`, `Env`), the peer record is a plain record.
* A value-returning C++ function whose control reaches the closing brace
  without a `return` yields no value: such functions return `Option`, and
  `none` stands for that outcome.
-/

namespace DW1000Ranging

/-! ## Bias correction tables and curves (source lines 531-605) -/

/-- The table `_bias_RSL[17]` (a `char` array read as signed values). -/
def _bias_RSL : List Int :=
  [-61, -63, -65, -67, -69, -71, -73, -75, -77, -79, -81, -83, -85, -87, -89, -91, -93]

/-- The table `_bias_PRF_16[17]` (a `short` array). -/
def _bias_PRF_16 : List Int :=
  [-198, -187, -179, -163, -143, -127, -109, -84, -59, -31, 0, 36, 65, 84, 97, 106, 110]

/-- The table `_bias_PRF_64[17]` (a `char` array read as signed values). -/
def _bias_PRF_64 : List Int :=
  [-110, -105, -100, -93, -82, -69, -51, -27, 0, 21, 35, 42, 49, 62, 71, 76, 81]

/-- Element access `tbl[i]` of a table, as a rational. -/
def at_ (tbl : List Int) (i : Nat) : ℚ := ((tbl.getD i 0 : Int) : ℚ)

/-- The search loop `for(int i=1; i<17; i++)` of `computeRangeBias_16` and
`computeRangeBias_64`, started at index `i` with `n` iterations left
(`n = 17 - i`).  The first index whose strict test
`RXPower<_bias_RSL[i-1] && RXPower>_bias_RSL[i]` holds returns the value of the
line through the two table points, divided by `100`; when the loop runs out the
function ends without a `return` (`none`). -/
def biasLoop (prf : List Int) (RXPower : ℚ) : Nat → Nat → Option ℚ
  | 0, _ => none
  | n + 1, i =>
    if RXPower < at_ _bias_RSL (i - 1) ∧ RXPower > at_ _bias_RSL i then
      let a : ℚ := (at_ prf (i - 1) / 10 - at_ prf i / 10)
                    / (at_ _bias_RSL (i - 1) - at_ _bias_RSL i)
      let b : ℚ := at_ prf (i - 1) / 10 - a * at_ _bias_RSL (i - 1)
      some ((a * RXPower + b) / 100)
    else biasLoop prf RXPower n (i + 1)

/-- The function `computeRangeBias_16` over exact rational arithmetic. -/
def computeRangeBias_16 (RXPower : ℚ) : Option ℚ :=
  if RXPower ≥ at_ _bias_RSL 0 then some (at_ _bias_PRF_16 0 / 1000)
  else if RXPower ≤ at_ _bias_RSL 16 then some (at_ _bias_PRF_16 16 / 1000)
  else biasLoop _bias_PRF_16 RXPower 16 1

/-- The function `computeRangeBias_64` over exact rational arithmetic (its
serial output is not modelled). -/
def computeRangeBias_64 (RXPower : ℚ) : Option ℚ :=
  if RXPower ≥ at_ _bias_RSL 0 then some (at_ _bias_PRF_64 0 / 1000)
  else if RXPower ≤ at_ _bias_RSL 16 then some (at_ _bias_PRF_64 16 / 1000)
  else biasLoop _bias_PRF_64 RXPower 16 1

/-- The function `rangeRXCorrection`: `PRF` is the value of
`DW1000.getPulseFrequency()`, `freq16` and `freq64` the driver constants
`TX_PULSE_FREQ_16MHZ` and `TX_PULSE_FREQ_64MHZ`.  The local `rangeBias` is
assigned from the chosen curve and the body then ends: the function has no
`return` statement. -/
def rangeRXCorrection (freq16 freq64 PRF : Fin 256) (RXPower : ℚ) : Option ℚ :=
  (if PRF = freq16 then computeRangeBias_16 RXPower
   else if PRF = freq64 then computeRangeBias_64 RXPower
   else some 0).bind fun _rangeBias => none

/-! ## Bytes, buffers and stored floats -/

/-- A `byte`. -/
abbrev Byte := Fin 256

/-- A byte array addressed by offset (`data`, or a pointer into it). -/
abbrev Buffer := Nat → Byte

/-- Assignment `buf[i] = b`. -/
def setByte (buf : Buffer) (i : Nat) (b : Byte) : Buffer :=
  fun j => if j = i then b else buf j

/-- Pointer arithmetic `buf + off`. -/
def offset (buf : Buffer) (off : Nat) : Buffer := fun k => buf (off + k)

/-- The call `memcpy(buf + off, src, n)`. -/
def memcpyInto (buf : Buffer) (off n : Nat) (src : Buffer) : Buffer :=
  fun j => if off ≤ j ∧ j < off + n then src (j - off) else buf j

/-- A stored C `float`: its four-byte object representation. -/
structure Float32 where
  b0 : Byte
  b1 : Byte
  b2 : Byte
  b3 : Byte
deriving DecidableEq

/-- The bytes of a `float` object, as `memcpy` reads them. -/
def Float32.bytes (f : Float32) : Buffer := fun k =>
  match k with
  | 0 => f.b0
  | 1 => f.b1
  | 2 => f.b2
  | _ => f.b3

/-- The call `memcpy(&f, src, 4)`. -/
def Float32.ofBytes (src : Buffer) : Float32 := ⟨src 0, src 1, src 2, src 3⟩

/-! ## External collaborators -/

/-- The constants of `DW1000Ranging.h` and of the driver used by the source.
Message-type tags are wire tag bytes. -/
structure Consts where
  POLL : Byte
  POLL_ACK : Byte
  RANGE : Byte
  RANGE_REPORT : Byte
  RANGE_FAILED : Byte
  ANCHOR : Int
  TAG : Int
  TX_PULSE_FREQ_16MHZ : Byte
  TX_PULSE_FREQ_64MHZ : Byte

/-- The operations of the external time type `DW1000Time` (over timestamps
`T`) and of `float` arithmetic that the source calls. -/
structure Platform (T : Type) where
  /-- The operator `a - b`. -/
  sub : T → T → T
  /-- The operator `a + b`. -/
  add : T → T → T
  /-- The operator `a * b`. -/
  mul : T → T → T
  /-- The operator `a / b`. -/
  div : T → T → T
  /-- The method `wrap()`. -/
  wrap : T → T
  /-- The constructor `DW1000Time(us, DW_MICROSECONDS)`. -/
  ofMicroseconds : Nat → T
  /-- The method `getAsMeters()`. -/
  getAsMeters : T → Float32
  /-- The method `getTimestamp(byte[])`: the five bytes written. -/
  getTimestamp : T → Buffer
  /-- The method `setTimestamp(byte[])`: the timestamp read from five bytes. -/
  setTimestamp : Buffer → T
  /-- The `float` subtraction `a - b`. -/
  fsub : Float32 → Float32 → Float32
  /-- The numeric value of a `float`. -/
  fval : Float32 → ℚ
  /-- The `float` nearest to a number. -/
  fround : ℚ → Float32

/-- What the environment delivers during one pass of `loop`: the clock and the
readings of the radio driver. -/
structure Env (T : Type) where
  /-- The value of `millis()`. -/
  millis : Nat
  /-- The payload `DW1000.getData` copies into `data`. -/
  data : Buffer
  /-- The value `DW1000.getTransmitTimestamp` yields. -/
  transmitTimestamp : T
  /-- The value `DW1000.getReceiveTimestamp` yields. -/
  receiveTimestamp : T
  /-- The value of `DW1000.getReceivePower()`. -/
  receivePower : Float32
  /-- The value of `DW1000.getFirstPathPower()`. -/
  firstPathPower : Float32
  /-- The value of `DW1000.getReceiveQuality()`. -/
  receiveQuality : Float32
  /-- The value of `DW1000.getPulseFrequency()`. -/
  pulseFrequency : Byte
  /-- The timestamp `DW1000.setDelay(delta)` returns. -/
  setDelay : T → T

/-- A command issued to the radio driver, or the invocation of the
application handler `_handleNewRange`. -/
inductive Call (T : Type) where
  | newTransmit
  | newReceive
  | setDefaults
  | setDelay (delta : T)
  | setData (payload : Buffer)
  | startTransmit
  | receivePermanently (flag : Bool)
  | startReceive
  | handleNewRange
  | attachSentHandler
  | attachReceivedHandler
  | setEUI (address : Buffer)

/-- Modelled from the spec: the peer record `DW1000Device`, whose class is
declared outside the source file.  It holds the six cycle timestamps and the
last range, receive power, first-path power and quality; `setRange`,
`setRXPower`, `setFPPower`, `setQuality` store a field and `getRange`,
`getRXPower` load it; `address` is the long-form eight-byte address that
`getAddress` writes. -/
structure DW1000Device (T : Type) where
  address : Buffer
  timePollSent : T
  timePollReceived : T
  timePollAckSent : T
  timePollAckReceived : T
  timeRangeSent : T
  timeRangeReceived : T
  range : Float32
  RXPower : Float32
  FPPower : Float32
  quality : Float32

/-- The static state of `DW1000RangingClass`, together with the list of calls
made so far.  The field `networkDevice` is `_networkDevices[0]`, the only slot
`loop` addresses; `_handleNewRange` tells whether a handler is registered. -/
structure Engine (T : Type) where
  networkDevice : DW1000Device T
  _currentAddress : Buffer
  _type : Int
  _expectedMsgId : Byte
  _sentAck : Bool
  _receivedAck : Bool
  _protocolFailed : Bool
  data : Buffer
  _lastActivity : Nat
  _resetPeriod : Nat
  _replyDelayTimeUS : Nat
  _handleNewRange : Bool
  calls : List (Call T)
  _rangingCountPeriod : Nat := 0

variable {T : Type}

/-! ## Clock arithmetic (32-bit `long` and `unsigned long`) -/

/-- Conversion of an `unsigned long` to `long`. -/
def toLong (u : Nat) : Int :=
  if u % 2 ^ 32 < 2 ^ 31 then ((u % 2 ^ 32 : Nat) : Int) else ((u % 2 ^ 32 : Nat) : Int) - 2 ^ 32

/-- Conversion of an integer to `unsigned long`. -/
def toULong (z : Int) : Nat := (z % 2 ^ 32).toNat

/-! ## Handlers, activity, transmission (source lines 378-495) -/

/-- The handler `handleSent`. -/
def handleSent (s : Engine T) : Engine T := { s with _sentAck := true }

/-- The handler `handleReceived`. -/
def handleReceived (s : Engine T) : Engine T := { s with _receivedAck := true }

/-- The function `noteActivity`. -/
def noteActivity (env : Env T) (s : Engine T) : Engine T :=
  { s with _lastActivity := env.millis % 2 ^ 32 }

/-- The function `transmit(byte data[])`. -/
def transmit (s : Engine T) : Engine T :=
  { s with calls := s.calls ++
      [Call.newTransmit, Call.setDefaults, Call.setData s.data, Call.startTransmit] }

/-- The function `transmit(byte data[], DW1000Time time)`. -/
def transmitDelayed (time : T) (s : Engine T) : Engine T :=
  { s with calls := s.calls ++
      [Call.newTransmit, Call.setDefaults, Call.setDelay time, Call.setData s.data,
       Call.startTransmit] }

/-- The function `transmitPoll`. -/
def transmitPoll (c : Consts) (s : Engine T) : Engine T :=
  transmit { s with data := setByte s.data 0 c.POLL }

/-- The function `transmitPollAck`. -/
def transmitPollAck (c : Consts) (p : Platform T) (s : Engine T) : Engine T :=
  let deltaTime := p.ofMicroseconds s._replyDelayTimeUS
  transmitDelayed deltaTime { s with data := setByte s.data 0 c.POLL_ACK }

/-- The function `transmitRange`, applied to `_networkDevices[0]`. -/
def transmitRange (c : Consts) (p : Platform T) (env : Env T) (s : Engine T) : Engine T :=
  let data := setByte s.data 0 c.RANGE
  let deltaTime := p.ofMicroseconds s._replyDelayTimeUS
  let dev := { s.networkDevice with timeRangeSent := env.setDelay deltaTime }
  let data := memcpyInto data 1 5 (p.getTimestamp dev.timePollSent)
  let data := memcpyInto data 6 5 (p.getTimestamp dev.timePollAckReceived)
  let data := memcpyInto data 11 5 (p.getTimestamp dev.timeRangeSent)
  transmit { s with data := data, networkDevice := dev,
                    calls := s.calls ++ [Call.setDelay deltaTime] }

/-- The function `transmitRangeReport`, applied to `_networkDevices[0]`. -/
def transmitRangeReport (c : Consts) (s : Engine T) : Engine T :=
  let data := setByte s.data 0 c.RANGE_REPORT
  let curRange := s.networkDevice.range
  let curRXPower := s.networkDevice.RXPower
  let data := memcpyInto data 1 4 curRange.bytes
  let data := memcpyInto data 5 4 curRXPower.bytes
  transmit { s with data := data }

/-- The function `transmitRangeFailed`. -/
def transmitRangeFailed (c : Consts) (s : Engine T) : Engine T :=
  transmit { s with data := setByte s.data 0 c.RANGE_FAILED }

/-- The function `receiver`. -/
def receiver (s : Engine T) : Engine T :=
  { s with calls := s.calls ++
      [Call.newReceive, Call.setDefaults, Call.receivePermanently true, Call.startReceive] }

/-- The function `resetInactive` (its serial output is not modelled). -/
def resetInactive (c : Consts) (env : Env T) (s : Engine T) : Engine T :=
  noteActivity env
    (if s._type = c.ANCHOR then receiver { s with _expectedMsgId := c.POLL }
     else if s._type = c.TAG then transmitPoll c { s with _expectedMsgId := c.POLL_ACK }
     else s)

/-- The function `checkForReset`: `curMillis` is a `long`, the difference
`curMillis - _lastActivity` is taken in `unsigned long`. -/
def checkForReset (c : Consts) (env : Env T) (s : Engine T) : Engine T :=
  let curMillis : Int := toLong env.millis
  if !s._sentAck && !s._receivedAck then
    if toULong (curMillis - (s._lastActivity : Int)) > s._resetPeriod then
      resetInactive c env s
    else s
  else s

/-- The function `computeRangeAsymmetric`: the record it is given and the
time of flight stored through `myTOF`. -/
def computeRangeAsymmetric (p : Platform T) (myDistantDevice : DW1000Device T) :
    DW1000Device T × T :=
  let round1 := p.wrap (p.sub myDistantDevice.timePollAckReceived myDistantDevice.timePollSent)
  let reply1 := p.wrap (p.sub myDistantDevice.timePollAckSent myDistantDevice.timePollReceived)
  let round2 := p.wrap (p.sub myDistantDevice.timeRangeReceived myDistantDevice.timePollAckSent)
  let reply2 := p.wrap (p.sub myDistantDevice.timeRangeSent myDistantDevice.timePollAckReceived)
  (myDistantDevice,
   p.div (p.sub (p.mul round1 round2) (p.mul reply1 reply2))
         (p.add (p.add (p.add round1 round2) reply1) reply2))

/-- The invocation `if(_handleNewRange != 0) (*_handleNewRange)();`. -/
def callHandleNewRange (s : Engine T) : Engine T :=
  if s._handleNewRange then { s with calls := s.calls ++ [Call.handleNewRange] } else s

/-! ## The function `loop` (source lines 222-362) -/

/-- The block `if(_sentAck){...}` of `loop`. -/
def loopSent (c : Consts) (env : Env T) (s : Engine T) : Engine T :=
  if s._sentAck then
    let s := { s with _sentAck := false }
    if s._type = c.ANCHOR then
      if s.data 0 = c.POLL_ACK then
        noteActivity env
          { s with networkDevice :=
              { s.networkDevice with timePollAckSent := env.transmitTimestamp } }
      else s
    else if s._type = c.TAG then
      if s.data 0 = c.POLL then
        { s with networkDevice :=
            { s.networkDevice with timePollSent := env.transmitTimestamp } }
      else if s.data 0 = c.RANGE then
        noteActivity env
          { s with networkDevice :=
              { s.networkDevice with timeRangeSent := env.transmitTimestamp } }
      else s
    else s
  else s

/-- The arm `if(!_protocolFailed){...}` of the anchor's `RANGE` case: the
timestamps carried by the frame are decoded, the range is computed, corrected
and stored, the report is transmitted and the handler invoked.  The pass has a
result only if `rangeRXCorrection` returns a value. -/
def anchorRangeOk (c : Consts) (p : Platform T) (env : Env T) (s : Engine T) :
    Option (Engine T) :=
  let dev := s.networkDevice
  let dev := { dev with timePollSent := p.setTimestamp (offset s.data 1) }
  let dev := { dev with timePollAckReceived := p.setTimestamp (offset s.data 6) }
  let dev := { dev with timeRangeSent := p.setTimestamp (offset s.data 11) }
  let r := computeRangeAsymmetric p dev
  let dev := r.1
  let myTOF := r.2
  let distance := p.getAsMeters myTOF
  let dev := { dev with RXPower := env.receivePower }
  (rangeRXCorrection c.TX_PULSE_FREQ_16MHZ c.TX_PULSE_FREQ_64MHZ env.pulseFrequency
      (p.fval dev.RXPower)).bind fun rangeBias =>
    let dev := { dev with range := p.fsub distance (p.fround rangeBias) }
    let dev := { dev with FPPower := env.firstPathPower }
    let dev := { dev with quality := env.receiveQuality }
    some (callHandleNewRange (transmitRangeReport c { s with networkDevice := dev }))

/-- The block `if(_receivedAck){...}` of `loop`; `DW1000.getData(data, LEN_DATA)`
replaces the whole buffer by the received payload.  The result is `none` when
the pass uses the value of a function that returned none. -/
def loopReceived (c : Consts) (p : Platform T) (env : Env T) (s : Engine T) :
    Option (Engine T) :=
  if s._receivedAck then
    let s := { s with _receivedAck := false, data := env.data }
    if s._type = c.ANCHOR then
      let s := if s.data 0 ≠ s._expectedMsgId then { s with _protocolFailed := true } else s
      if s.data 0 = c.POLL then
        let s := { s with _protocolFailed := false,
                          networkDevice :=
                            { s.networkDevice with timePollReceived := env.receiveTimestamp },
                          _expectedMsgId := c.RANGE }
        some (noteActivity env (transmitPollAck c p s))
      else if s.data 0 = c.RANGE then
        let s := { s with networkDevice :=
                            { s.networkDevice with timeRangeReceived := env.receiveTimestamp },
                          _expectedMsgId := c.POLL }
        if !s._protocolFailed then
          (anchorRangeOk c p env s).map (noteActivity env)
        else
          some (noteActivity env (transmitRangeFailed c s))
      else some s
    else if s._type = c.TAG then
      if s.data 0 ≠ s._expectedMsgId then
        some (transmitPoll c { s with _expectedMsgId := c.POLL_ACK })
      else if s.data 0 = c.POLL_ACK then
        let s := { s with networkDevice :=
                            { s.networkDevice with timePollAckReceived := env.receiveTimestamp },
                          _expectedMsgId := c.RANGE_REPORT }
        some (noteActivity env (transmitRange c p env s))
      else if s.data 0 = c.RANGE_REPORT then
        let s := { s with _expectedMsgId := c.POLL_ACK }
        let curRange := Float32.ofBytes (offset s.data 1)
        let curRXPower := Float32.ofBytes (offset s.data 5)
        let s := { s with networkDevice :=
                            { s.networkDevice with range := curRange, RXPower := curRXPower } }
        some (noteActivity env (transmitPoll c (callHandleNewRange s)))
      else if s.data 0 = c.RANGE_FAILED then
        some (noteActivity env (transmitPoll c { s with _expectedMsgId := c.POLL_ACK }))
      else some s
    else some s
  else some s

/-- The function `loop`: the watchdog check, then the send-completion block,
then the reception block. -/
def loop (c : Consts) (p : Platform T) (env : Env T) (s : Engine T) : Option (Engine T) :=
  loopReceived c p env (loopSent c env (checkForReset c env s))

/-! ## A sample platform

Concrete constants, time arithmetic and states on which the general
statements are instantiated. -/

/-- Distinct sample values for the constants. -/
def sampleConsts : Consts where
  POLL := 0
  POLL_ACK := 1
  RANGE := 2
  RANGE_REPORT := 3
  RANGE_FAILED := 255
  ANCHOR := 1
  TAG := 0
  TX_PULSE_FREQ_16MHZ := 1
  TX_PULSE_FREQ_64MHZ := 2

/-- The zero `float` pattern. -/
def zeroFloat : Float32 := ⟨0, 0, 0, 0⟩

/-- A sample time type: integer timestamps on a 40-bit counter with truncating
integer arithmetic, `wrap` adding `2^40` to a negative value, five
little-endian bytes; the float operations are constant. -/
def samplePlatform : Platform Int where
  sub := fun a b => a - b
  add := fun a b => a + b
  mul := fun a b => a * b
  div := fun a b => Int.tdiv a b
  wrap := fun a => if a < 0 then a + 2 ^ 40 else a
  ofMicroseconds := fun us => (us : Int) * 63898
  getAsMeters := fun _ => zeroFloat
  getTimestamp := fun t k => Fin.ofNat ((t / 256 ^ k).toNat % 256)
  setTimestamp := fun b =>
    (b 0).val + 256 * ((b 1).val + 256 * ((b 2).val + 256 * ((b 3).val + 256 * (b 4).val)))
  fsub := fun a _ => a
  fval := fun _ => 0
  fround := fun _ => zeroFloat

/-- A peer record with all timestamps zero. -/
def sampleDevice : DW1000Device Int where
  address := fun _ => 0
  timePollSent := 0
  timePollReceived := 0
  timePollAckSent := 0
  timePollAckReceived := 0
  timeRangeSent := 0
  timeRangeReceived := 0
  range := zeroFloat
  RXPower := zeroFloat
  FPPower := zeroFloat
  quality := zeroFloat

/-- An idle engine of the given role awaiting the given message, with a
registered handler. -/
def sampleEngine (type : Int) (expected : Byte) : Engine Int where
  networkDevice := sampleDevice
  _currentAddress := fun _ => 0
  _type := type
  _expectedMsgId := expected
  _sentAck := false
  _receivedAck := false
  _protocolFailed := false
  data := fun _ => 0
  _lastActivity := 0
  _resetPeriod := 500
  _replyDelayTimeUS := 3000
  _handleNewRange := true
  calls := []

/-- Radio readings at clock value `now` for a received frame whose byte 0 is
`tag` and whose other bytes are zero; receive timestamp `7`. -/
def sampleEnv (now : Nat) (tag : Byte) : Env Int where
  millis := now
  data := fun k => if k = 0 then tag else 0
  transmitTimestamp := 5
  receiveTimestamp := 7
  receivePower := zeroFloat
  firstPathPower := zeroFloat
  receiveQuality := zeroFloat
  pulseFrequency := 1
  setDelay := fun d => d + 9

/-- A peer record whose timestamps give `round1 = 4000`, `reply1 = 3000`,
`round2 = 4200`, `reply2 = 3100`. -/
def tofDevice : DW1000Device Int :=
  { sampleDevice with
    timePollSent := 1000, timePollAckReceived := 5000,
    timePollReceived := 2000, timePollAckSent := 5000,
    timeRangeReceived := 9200, timeRangeSent := 8100 }

/-- An engine whose peer record holds the range bytes `1,2,3,4` and the
power bytes `5,6,7,8`. -/
def reportAnchor : Engine Int :=
  { sampleEngine 1 0 with
    networkDevice := { sampleDevice with range := ⟨1, 2, 3, 4⟩, RXPower := ⟨5, 6, 7, 8⟩ } }

/-- Radio readings of a Tag that receives the frame `reportAnchor` transmits
with `transmitRangeReport`, at clock value `10`. -/
def reportEnv : Env Int :=
  { sampleEnv 10 3 with data := (transmitRangeReport sampleConsts reportAnchor).data }

/-! ## Start-up and getters (source lines 92-182) -/

/-- The function `generalStart` (the `DEBUG` block only prints and is not
modelled). -/
def generalStart (env : Env T) (s : Engine T) : Engine T :=
  let s := { s with calls := s.calls ++ [Call.attachSentHandler, Call.attachReceivedHandler] }
  let s := receiver s
  let s := noteActivity env s
  { s with _rangingCountPeriod := env.millis % 2 ^ 32 }

/-- The function `startAsAnchor`; `networkDevices0` is the element
`networkDevices[0]` that the first `memcpy` copies. -/
def startAsAnchor (c : Consts) (env : Env T) (myDevice networkDevices0 : DW1000Device T)
    (s : Engine T) : Engine T :=
  let s := { s with networkDevice := networkDevices0 }
  let address := myDevice.address
  let s := { s with _currentAddress := memcpyInto s._currentAddress 0 8 address }
  let s := { s with calls := s.calls ++ [Call.setEUI address] }
  let s := generalStart env s
  { s with _type := c.ANCHOR }

/-- The function `startAsTag`; `networkDevices0` is the element
`networkDevices[0]` that the `memcpy` copies. -/
def startAsTag (c : Consts) (env : Env T) (myDevice networkDevices0 : DW1000Device T)
    (s : Engine T) : Engine T :=
  let s := { s with networkDevice := networkDevices0 }
  let address := myDevice.address
  let s := { s with calls := s.calls ++ [Call.setEUI address] }
  let s := generalStart env s
  let s := { s with _type := c.TAG }
  transmitPoll c s

/-- The function `getCurrentAddress`: the caller's buffer after the call. -/
def getCurrentAddress (s : Engine T) (Address : Buffer) : Buffer :=
  memcpyInto Address 0 8 s._currentAddress

/-- The static state before any call (source lines 30-59): the members with an
initialiser have that value, the others are zero-initialised; `dev` is the
default-constructed `_networkDevices[0]`. -/
def initialEngine (dev : DW1000Device T) : Engine T where
  networkDevice := dev
  _currentAddress := fun _ => 0
  _type := 0
  _expectedMsgId := 0
  _sentAck := false
  _receivedAck := false
  _protocolFailed := false
  data := fun _ => 0
  _lastActivity := 0
  _resetPeriod := 0
  _replyDelayTimeUS := 0
  _handleNewRange := false
  calls := []
  _rangingCountPeriod := 0

/-- A local device with the address bytes `1,2,...,8`. -/
def sampleMyDevice : DW1000Device Int :=
  { sampleDevice with address := fun k => Fin.ofNat (k + 1) }

/-- An engine of the given role whose sent flag is set and whose buffer holds
`tag` in byte 0. -/
def sentEngine (type : Int) (tag : Byte) : Engine Int :=
  { sampleEngine type 1 with _sentAck := true, data := fun k => if k = 0 then tag else 0 }

/-! ## Passes of `loop` with the bias correction supplied

The reception block calls `rangeRXCorrection` in one place.  The definitions
below are the same blocks with the value that call hands back given by a
function `corr` of the pulse frequency and the receive power; the source is
the instance `corr = rangeRXCorrection TX_PULSE_FREQ_16MHZ TX_PULSE_FREQ_64MHZ`. -/

/-- The arm `if(!_protocolFailed){...}` of the anchor's `RANGE` case, with the
outcome of the call `rangeRXCorrection(...)` given by `corr`. -/
def anchorRangeOkWith (corr : Byte → ℚ → Option ℚ) (c : Consts) (p : Platform T)
    (env : Env T) (s : Engine T) : Option (Engine T) :=
  let dev := s.networkDevice
  let dev := { dev with timePollSent := p.setTimestamp (offset s.data 1) }
  let dev := { dev with timePollAckReceived := p.setTimestamp (offset s.data 6) }
  let dev := { dev with timeRangeSent := p.setTimestamp (offset s.data 11) }
  let r := computeRangeAsymmetric p dev
  let dev := r.1
  let myTOF := r.2
  let distance := p.getAsMeters myTOF
  let dev := { dev with RXPower := env.receivePower }
  (corr env.pulseFrequency (p.fval dev.RXPower)).bind fun rangeBias =>
    let dev := { dev with range := p.fsub distance (p.fround rangeBias) }
    let dev := { dev with FPPower := env.firstPathPower }
    let dev := { dev with quality := env.receiveQuality }
    some (callHandleNewRange (transmitRangeReport c { s with networkDevice := dev }))

/-- The block `if(_receivedAck){...}` of `loop`, with the outcome of the call
`rangeRXCorrection(...)` given by `corr`. -/
def loopReceivedWith (corr : Byte → ℚ → Option ℚ) (c : Consts) (p : Platform T)
    (env : Env T) (s : Engine T) : Option (Engine T) :=
  if s._receivedAck then
    let s := { s with _receivedAck := false, data := env.data }
    if s._type = c.ANCHOR then
      let s := if s.data 0 ≠ s._expectedMsgId then { s with _protocolFailed := true } else s
      if s.data 0 = c.POLL then
        let s := { s with _protocolFailed := false,
                          networkDevice :=
                            { s.networkDevice with timePollReceived := env.receiveTimestamp },
                          _expectedMsgId := c.RANGE }
        some (noteActivity env (transmitPollAck c p s))
      else if s.data 0 = c.RANGE then
        let s := { s with networkDevice :=
                            { s.networkDevice with timeRangeReceived := env.receiveTimestamp },
                          _expectedMsgId := c.POLL }
        if !s._protocolFailed then
          (anchorRangeOkWith corr c p env s).map (noteActivity env)
        else
          some (noteActivity env (transmitRangeFailed c s))
      else some s
    else if s._type = c.TAG then
      if s.data 0 ≠ s._expectedMsgId then
        some (transmitPoll c { s with _expectedMsgId := c.POLL_ACK })
      else if s.data 0 = c.POLL_ACK then
        let s := { s with networkDevice :=
                            { s.networkDevice with timePollAckReceived := env.receiveTimestamp },
                          _expectedMsgId := c.RANGE_REPORT }
        some (noteActivity env (transmitRange c p env s))
      else if s.data 0 = c.RANGE_REPORT then
        let s := { s with _expectedMsgId := c.POLL_ACK }
        let curRange := Float32.ofBytes (offset s.data 1)
        let curRXPower := Float32.ofBytes (offset s.data 5)
        let s := { s with networkDevice :=
                            { s.networkDevice with range := curRange, RXPower := curRXPower } }
        some (noteActivity env (transmitPoll c (callHandleNewRange s)))
      else if s.data 0 = c.RANGE_FAILED then
        some (noteActivity env (transmitPoll c { s with _expectedMsgId := c.POLL_ACK }))
      else some s
    else some s
  else some s

/-- The function `loop`, with the outcome of the call `rangeRXCorrection(...)`
given by `corr`. -/
def loopWith (corr : Byte → ℚ → Option ℚ) (c : Consts) (p : Platform T) (env : Env T)
    (s : Engine T) : Option (Engine T) :=
  loopReceivedWith corr c p env (loopSent c env (checkForReset c env s))

/-- What precedes and feeds one pass of `loop`: whether the interrupt handlers
`handleSent` and `handleReceived` fired since the previous pass, and the
readings of the pass. -/
structure Pass (T : Type) where
  env : Env T
  sent : Bool
  received : Bool

/-- The state at the start of a pass: the handlers that fired have set their
flags. -/
def raise (e : Pass T) (s : Engine T) : Engine T :=
  let s := if e.sent then handleSent s else s
  if e.received then handleReceived s else s

/-- Whether `checkForReset` calls `resetInactive` in a pass that starts in
state `s`. -/
def resetFires (env : Env T) (s : Engine T) : Bool :=
  (!s._sentAck && !s._receivedAck)
    && decide (toULong (toLong env.millis - (s._lastActivity : Int)) > s._resetPeriod)

/-- History of a run: `g` tells whether the most recent received frame that
was processed was a `POLL` with no watchdog reset since.  A pass that starts
in state `s` updates it: a reset clears it, a processed frame sets it to
whether the frame is a `POLL`, any other pass keeps it. -/
def trackPoll (c : Consts) (env : Env T) (s : Engine T) (g : Bool) : Bool :=
  if resetFires env s then false
  else if s._receivedAck then decide (env.data 0 = c.POLL)
  else g

/-- A sequence of passes from a state and its history; `none` when a pass has
no result. -/
def runWith (corr : Byte → ℚ → Option ℚ) (c : Consts) (p : Platform T) :
    List (Pass T) → Engine T × Bool → Option (Engine T × Bool)
  | [], x => some x
  | e :: es, x =>
    match loopWith corr c p e.env (raise e x.1) with
    | none => none
    | some s1 => runWith corr c p es (s1, trackPoll c e.env (raise e x.1) x.2)

/-- Whether a list of calls contains a transmitted payload tagged
`RANGE_REPORT` or an invocation of the new-range handler. -/
def reportsRange (c : Consts) (calls : List (Call T)) : Bool :=
  calls.any fun call =>
    match call with
    | Call.setData payload => decide (payload 0 = c.RANGE_REPORT)
    | Call.handleNewRange => true
    | _ => false

/-- A bias correction that always returns zero. -/
def zeroCorr : Byte → ℚ → Option ℚ := fun _ _ => some 0

/-- A pass at clock value `now` in which only `handleReceived` fired, for a
frame tagged `tag`. -/
def samplePass (now : Nat) (tag : Byte) : Pass Int :=
  { env := sampleEnv now tag, sent := false, received := true }

/-- The sample Anchor after the pass `samplePass 1 0`, in which it processed
a `POLL` frame while awaiting `POLL`. -/
def afterPoll : Engine Int :=
  noteActivity (samplePass 1 0).env
    (transmitPollAck sampleConsts samplePlatform
      { raise (samplePass 1 0) (sampleEngine 1 0) with
          _receivedAck := false, data := (samplePass 1 0).env.data, _protocolFailed := false,
          networkDevice :=
            { (raise (samplePass 1 0) (sampleEngine 1 0)).networkDevice with
                timePollReceived := (samplePass 1 0).env.receiveTimestamp },
          _expectedMsgId := sampleConsts.RANGE })

/-- The common shape of `computeRangeBias_16` and `computeRangeBias_64`: the
two clamps and the search loop over the correction table `prf`. -/
def biasCurve (prf : List Int) (RXPower : ℚ) : Option ℚ :=
  if RXPower ≥ at_ _bias_RSL 0 then some (at_ prf 0 / 1000)
  else if RXPower ≤ at_ _bias_RSL 16 then some (at_ prf 16 / 1000)
  else biasLoop prf RXPower 16 1

/-! ## Spec-side definitions -/

/-- The estimator as the specification words it:
`(round1 * round2 - reply1 * reply2) / (round1 + round2 + reply1 + reply2)`. -/
def specTimeOfFlight (p : Platform T) (round1 reply1 round2 reply2 : T) : T :=
  p.div (p.sub (p.mul round1 round2) (p.mul reply1 reply2))
    (p.add (p.add (p.add round1 round2) reply1) reply2)

/-- Linear interpolation between the table points `i-1` and `i` of the curve
`prf`, in metres. -/
def specInterpolate (prf : List Int) (i : Nat) (x : ℚ) : ℚ :=
  (at_ prf (i - 1) + (at_ prf i - at_ prf (i - 1)) * (at_ _bias_RSL (i - 1) - x)
      / (at_ _bias_RSL (i - 1) - at_ _bias_RSL i)) / 1000

/-- The elapsed time the watchdog compares: `now - last` in 32-bit unsigned
arithmetic. -/
def elapsed32 (now last : Nat) : Nat := (now % 2 ^ 32 + 2 ^ 32 - last % 2 ^ 32) % 2 ^ 32

/-! ## Lemmas on the bias tables -/

theorem bias_RSL_closed_form (i : Nat) (hi : i ≤ 16) : at_ _bias_RSL i = -61 - 2 * (i : ℚ) := by
  interval_cases i <;> norm_num [at_, _bias_RSL]

theorem biasLoop_found (prf : List Int) (x : ℚ) (k : Nat)
    (hk : x < at_ _bias_RSL (k - 1) ∧ x > at_ _bias_RSL k) :
    ∀ n i, i ≤ k → k < i + n →
      (∀ j, i ≤ j → j < k → ¬ (x < at_ _bias_RSL (j - 1) ∧ x > at_ _bias_RSL j)) →
      biasLoop prf x n i =
        some (((at_ prf (k - 1) / 10 - at_ prf k / 10)
                / (at_ _bias_RSL (k - 1) - at_ _bias_RSL k) * x
              + (at_ prf (k - 1) / 10 - (at_ prf (k - 1) / 10 - at_ prf k / 10)
                / (at_ _bias_RSL (k - 1) - at_ _bias_RSL k) * at_ _bias_RSL (k - 1))) / 100) := by
  intro n
  induction n with
  | zero => intro i h1 h2; omega
  | succ n ih =>
    intro i h1 h2 hskip
    by_cases hik : i = k
    · subst hik
      simp only [biasLoop, if_pos hk]
    · have hne := hskip i (le_refl i) (by omega)
      simp only [biasLoop, if_neg hne]
      exact ih (i + 1) (by omega) (by omega) (fun j hj hjk => hskip j (by omega) hjk)

theorem biasLoop_none (prf : List Int) (x : ℚ) :
    ∀ n i, (∀ j, i ≤ j → j < i + n → ¬ (x < at_ _bias_RSL (j - 1) ∧ x > at_ _bias_RSL j)) →
      biasLoop prf x n i = none := by
  intro n
  induction n with
  | zero => intro i _; rfl
  | succ n ih =>
    intro i hskip
    have hne := hskip i (le_refl i) (by omega)
    simp only [biasLoop, if_neg hne]
    exact ih (i + 1) (fun j hj hjk => hskip j (by omega) (by omega))

theorem biasLoop_interpolates (prf : List Int) (x : ℚ) (i : Nat) (h1 : 1 ≤ i) (h16 : i ≤ 16)
    (hlo : at_ _bias_RSL i < x) (hhi : x < at_ _bias_RSL (i - 1)) :
    biasLoop prf x 16 1 = some (specInterpolate prf i x) := by
  have hA := bias_RSL_closed_form i h16
  have hB := bias_RSL_closed_form (i - 1) (by omega)
  have hcast : ((i - 1 : Nat) : ℚ) = (i : ℚ) - 1 := by
    rw [Nat.cast_sub h1]; simp
  rw [biasLoop_found prf x i ⟨hhi, hlo⟩ 16 1 h1 (by omega)]
  · simp only [specInterpolate, hA, hB, hcast]
    congr 1
    ring
  · intro j hj hjk hcon
    have hC := bias_RSL_closed_form j (by omega)
    have hjq : (j : ℚ) + 1 ≤ (i : ℚ) := by exact_mod_cast hjk
    rw [hC] at hcon
    rw [hB, hcast] at hhi
    linarith [hcon.2]

/-! ## Range computation -/

/-- Claim C3: for every peer record `computeRangeAsymmetric` yields the time of
flight `(round1*round2 - reply1*reply2) / (round1 + round2 + reply1 + reply2)`
of the four wrapped intervals and returns the record unchanged; whenever the
intervals are `r1`, `p1`, `r2`, `p2` the result is the formula at these values
in the time type's arithmetic. -/
theorem computeRangeAsymmetric_spec (p : Platform T) (d : DW1000Device T) :
    (computeRangeAsymmetric p d).2 =
        specTimeOfFlight p
          (p.wrap (p.sub d.timePollAckReceived d.timePollSent))
          (p.wrap (p.sub d.timePollAckSent d.timePollReceived))
          (p.wrap (p.sub d.timeRangeReceived d.timePollAckSent))
          (p.wrap (p.sub d.timeRangeSent d.timePollAckReceived))
      ∧ (computeRangeAsymmetric p d).1 = d
      ∧ ∀ r1 p1 r2 p2 : T,
          p.wrap (p.sub d.timePollAckReceived d.timePollSent) = r1 →
          p.wrap (p.sub d.timePollAckSent d.timePollReceived) = p1 →
          p.wrap (p.sub d.timeRangeReceived d.timePollAckSent) = r2 →
          p.wrap (p.sub d.timeRangeSent d.timePollAckReceived) = p2 →
          (computeRangeAsymmetric p d).2 =
            p.div (p.sub (p.mul r1 r2) (p.mul p1 p2)) (p.add (p.add (p.add r1 r2) p1) p2) := by
  refine ⟨rfl, rfl, ?_⟩
  intro r1 p1 r2 p2 h1 h2 h3 h4
  subst h1 h2 h3 h4
  rfl

/-- Instance of C3 on integer timestamps: intervals `4000`, `3000`, `4200`,
`3100` give `(4000*4200 - 3000*3100)/14300`, which is `524` in truncating
integer division. -/
theorem computeRangeAsymmetric_spec_witness :
    (computeRangeAsymmetric samplePlatform tofDevice).2
        = Int.tdiv (4000 * 4200 - 3000 * 3100) (4000 + 4200 + 3000 + 3100)
      ∧ (computeRangeAsymmetric samplePlatform tofDevice).2 = 524
      ∧ (computeRangeAsymmetric samplePlatform tofDevice).1 = tofDevice :=
  ⟨(computeRangeAsymmetric_spec samplePlatform tofDevice).2.2 4000 3000 4200 3100
      (by decide) (by decide) (by decide) (by decide),
   by decide,
   (computeRangeAsymmetric_spec samplePlatform tofDevice).2.1⟩

/-! ## Bias curves -/

/-- Claim C4: on both curves every input at or above the strongest breakpoint
`-61` returns the first table correction divided by `1000` (`-0.198` for PRF 16,
`-0.110` for PRF 64) and every input at or below the weakest breakpoint `-93`
returns the last one (`0.110` and `0.081`). -/
theorem computeRangeBias_clamps (x : ℚ) :
    at_ _bias_RSL 0 = -61 ∧ at_ _bias_RSL 16 = -93
      ∧ (-61 ≤ x → computeRangeBias_16 x = some (-198 / 1000)
                  ∧ computeRangeBias_64 x = some (-110 / 1000))
      ∧ (x ≤ -93 → computeRangeBias_16 x = some (110 / 1000)
                  ∧ computeRangeBias_64 x = some (81 / 1000)) := by
  have h0 : at_ _bias_RSL 0 = -61 := by norm_num [at_, _bias_RSL]
  have h16 : at_ _bias_RSL 16 = -93 := by norm_num [at_, _bias_RSL]
  refine ⟨h0, h16, ?_, ?_⟩
  · intro hx
    have hx' : x ≥ at_ _bias_RSL 0 := by rw [h0]; exact hx
    constructor
    · simp only [computeRangeBias_16, if_pos hx']
      norm_num [at_, _bias_PRF_16]
    · simp only [computeRangeBias_64, if_pos hx']
      norm_num [at_, _bias_PRF_64]
  · intro hx
    have hx0 : ¬ x ≥ at_ _bias_RSL 0 := by rw [h0]; intro h; linarith
    have hx' : x ≤ at_ _bias_RSL 16 := by rw [h16]; exact hx
    constructor
    · simp only [computeRangeBias_16, if_neg hx0, if_pos hx']
      norm_num [at_, _bias_PRF_16]
    · simp only [computeRangeBias_64, if_neg hx0, if_pos hx']
      norm_num [at_, _bias_PRF_64]

/-- Instance of C4 at the inputs `-50` and `-100`. -/
theorem computeRangeBias_clamps_witness :
    (computeRangeBias_16 (-50) = some (-198 / 1000)
        ∧ computeRangeBias_64 (-50) = some (-110 / 1000))
      ∧ (computeRangeBias_16 (-100) = some (110 / 1000)
        ∧ computeRangeBias_64 (-100) = some (81 / 1000)) :=
  ⟨(computeRangeBias_clamps (-50)).2.2.1 (by norm_num),
   (computeRangeBias_clamps (-100)).2.2.2 (by norm_num)⟩

/-- Claim C5: on both curves, for every index `i` in `1..16` and every input
`x` strictly between the breakpoints `RSL[i]` and `RSL[i-1]`, the value returned
is the linear interpolation
`(c[i-1] + (c[i]-c[i-1])*(RSL[i-1]-x)/(RSL[i-1]-RSL[i]))/1000`; at the midpoint
of the two breakpoints it is the mean `(c[i-1]+c[i])/2000`. -/
theorem computeRangeBias_interpolates (i : Nat) (h1 : 1 ≤ i) (h16 : i ≤ 16) (x : ℚ)
    (hlo : at_ _bias_RSL i < x) (hhi : x < at_ _bias_RSL (i - 1)) :
    computeRangeBias_16 x = some (specInterpolate _bias_PRF_16 i x)
      ∧ computeRangeBias_64 x = some (specInterpolate _bias_PRF_64 i x)
      ∧ (x = (at_ _bias_RSL (i - 1) + at_ _bias_RSL i) / 2 →
          computeRangeBias_16 x
              = some ((at_ _bias_PRF_16 (i - 1) + at_ _bias_PRF_16 i) / 2000)
            ∧ computeRangeBias_64 x
              = some ((at_ _bias_PRF_64 (i - 1) + at_ _bias_PRF_64 i) / 2000)) := by
  have hA := bias_RSL_closed_form i h16
  have hB := bias_RSL_closed_form (i - 1) (by omega)
  have hZ := bias_RSL_closed_form 0 (by omega)
  have hL := bias_RSL_closed_form 16 (by omega)
  have hcast : ((i - 1 : Nat) : ℚ) = (i : ℚ) - 1 := by
    rw [Nat.cast_sub h1]; simp
  have hi1 : (1 : ℚ) ≤ (i : ℚ) := by exact_mod_cast h1
  have hi16 : (i : ℚ) ≤ 16 := by exact_mod_cast h16
  have hx0 : ¬ x ≥ at_ _bias_RSL 0 := by
    rw [hZ]; rw [hB, hcast] at hhi; intro h; push_cast at h; linarith
  have hx16 : ¬ x ≤ at_ _bias_RSL 16 := by
    rw [hL]; rw [hA] at hlo; intro h; push_cast at h; linarith
  have e16 : computeRangeBias_16 x = some (specInterpolate _bias_PRF_16 i x) := by
    simp only [computeRangeBias_16, if_neg hx0, if_neg hx16]
    exact biasLoop_interpolates _ x i h1 h16 hlo hhi
  have e64 : computeRangeBias_64 x = some (specInterpolate _bias_PRF_64 i x) := by
    simp only [computeRangeBias_64, if_neg hx0, if_neg hx16]
    exact biasLoop_interpolates _ x i h1 h16 hlo hhi
  refine ⟨e16, e64, ?_⟩
  intro hmid
  have hmean : ∀ prf : List Int,
      specInterpolate prf i x = (at_ prf (i - 1) + at_ prf i) / 2000 := by
    intro prf
    simp only [specInterpolate, hmid, hA, hB, hcast]
    ring
  rw [e16, e64, hmean, hmean]
  exact ⟨rfl, rfl⟩

/-- Instance of C5 at `i = 1`, `x = -62`: PRF 16 gives `-0.1925`, PRF 64 gives
`-0.1075`. -/
theorem computeRangeBias_interpolates_witness :
    computeRangeBias_16 (-62) = some (-1925 / 10000)
      ∧ computeRangeBias_64 (-62) = some (-1075 / 10000) := by
  have h := computeRangeBias_interpolates 1 (by decide) (by decide) (-62)
    (by norm_num [at_, _bias_RSL]) (by norm_num [at_, _bias_RSL])
  have h' := h.2.2 (by norm_num [at_, _bias_RSL])
  refine ⟨?_, ?_⟩
  · rw [h'.1]; norm_num [at_, _bias_PRF_16]
  · rw [h'.2]; norm_num [at_, _bias_PRF_64]

theorem computeRangeBias_at_interior_breakpoint (i : Nat) (h1 : 1 ≤ i) (h15 : i ≤ 15) :
    computeRangeBias_16 (at_ _bias_RSL i) = none
      ∧ computeRangeBias_64 (at_ _bias_RSL i) = none := by
  have hA := bias_RSL_closed_form i (by omega)
  have hZ := bias_RSL_closed_form 0 (by omega)
  have hL := bias_RSL_closed_form 16 (by omega)
  have hi1 : (1 : ℚ) ≤ (i : ℚ) := by exact_mod_cast h1
  have hi15 : (i : ℚ) ≤ 15 := by exact_mod_cast h15
  have hx0 : ¬ at_ _bias_RSL i ≥ at_ _bias_RSL 0 := by
    rw [hZ, hA]; intro h; push_cast at h; linarith
  have hx16 : ¬ at_ _bias_RSL i ≤ at_ _bias_RSL 16 := by
    rw [hL, hA]; intro h; push_cast at h; linarith
  have hskip : ∀ j, 1 ≤ j → j < 1 + 16 →
      ¬ (at_ _bias_RSL i < at_ _bias_RSL (j - 1) ∧ at_ _bias_RSL i > at_ _bias_RSL j) := by
    intro j hj1 hj17 hcon
    have hC := bias_RSL_closed_form j (by omega)
    have hD := bias_RSL_closed_form (j - 1) (by omega)
    have hcast : ((j - 1 : Nat) : ℚ) = (j : ℚ) - 1 := by
      rw [Nat.cast_sub hj1]; simp
    rw [hA, hC, hD, hcast] at hcon
    have h2' : (i : ℚ) < (j : ℚ) := by linarith [hcon.2]
    have h3 : j < i + 1 := by
      have : (j : ℚ) < (i : ℚ) + 1 := by linarith [hcon.1]
      exact_mod_cast this
    have h4 : i < j := by exact_mod_cast h2'
    omega
  constructor
  · simp only [computeRangeBias_16, if_neg hx0, if_neg hx16]
    exact biasLoop_none _ _ 16 1 hskip
  · simp only [computeRangeBias_64, if_neg hx0, if_neg hx16]
    exact biasLoop_none _ _ 16 1 hskip

/-- Claim C6, evaluated on the code: the 17 breakpoints are strictly
descending, yet at the interior breakpoints `-63` and `-91` neither clamp fires
and no iteration of the search loop matches, so both lookups end without a
return value. -/
theorem computeRangeBias_interior_breakpoint_undefined :
    List.Pairwise (fun a b => a > b) _bias_RSL
      ∧ _bias_RSL.length = 17
      ∧ computeRangeBias_16 (-63) = none
      ∧ computeRangeBias_64 (-63) = none
      ∧ computeRangeBias_16 (-91) = none
      ∧ computeRangeBias_64 (-91) = none := by
  have h63 : at_ _bias_RSL 1 = -63 := by norm_num [at_, _bias_RSL]
  have h91 : at_ _bias_RSL 15 = -91 := by norm_num [at_, _bias_RSL]
  have hone := computeRangeBias_at_interior_breakpoint 1 (by decide) (by decide)
  have hlast := computeRangeBias_at_interior_breakpoint 15 (by decide) (by decide)
  rw [h63] at hone
  rw [h91] at hlast
  exact ⟨by decide, rfl, hone.1, hone.2, hlast.1, hlast.2⟩

/-! ## Watchdog -/

theorem toULong_toLong_sub (now last : Nat) :
    toULong (toLong now - (last : Int)) = elapsed32 now last := by
  unfold toULong toLong elapsed32
  split <;> omega

theorem loop_of_received_only (c : Consts) (p : Platform T) (env : Env T) (s : Engine T)
    (hsent : s._sentAck = false) (hrecv : s._receivedAck = true) :
    loop c p env s = loopReceived c p env s := by
  simp [loop, checkForReset, loopSent, hsent, hrecv]

/-- Claim C7: with neither flag set, one `checkForReset` at clock value `now`
performs `resetInactive` once when the elapsed time `now - _lastActivity`
(32-bit unsigned) exceeds `_resetPeriod` and changes nothing otherwise, equality
included; with a flag set it changes nothing.  Without rollover the elapsed
time is the plain difference. -/
theorem checkForReset_spec (c : Consts) (env : Env T) (s : Engine T) :
    (s._sentAck = false → s._receivedAck = false →
        (s._resetPeriod < elapsed32 env.millis s._lastActivity →
            checkForReset c env s = resetInactive c env s)
          ∧ (elapsed32 env.millis s._lastActivity ≤ s._resetPeriod →
            checkForReset c env s = s))
      ∧ (s._sentAck = true ∨ s._receivedAck = true → checkForReset c env s = s)
      ∧ (s._lastActivity ≤ env.millis → env.millis < 2 ^ 32 →
          elapsed32 env.millis s._lastActivity = env.millis - s._lastActivity) := by
  refine ⟨?_, ?_, ?_⟩
  · intro hs hr
    constructor
    · intro h
      simp [checkForReset, hs, hr, toULong_toLong_sub, h]
    · intro h
      simp [checkForReset, hs, hr, toULong_toLong_sub, Nat.not_lt.mpr h]
  · intro h
    rcases h with h | h <;> simp [checkForReset, h]
  · intro h1 h2
    unfold elapsed32
    omega

/-- Instance of C7: `_resetPeriod = 500`, `_lastActivity = 0`, no flag set.  A
poll at `501` is one `resetInactive`, which in Anchor role restarts reception
and records the time; polls at `499` and at `500` change nothing; with the
received flag set a poll at `501` changes nothing. -/
theorem checkForReset_spec_witness :
    checkForReset sampleConsts (sampleEnv 501 0) (sampleEngine 1 0)
        = resetInactive sampleConsts (sampleEnv 501 0) (sampleEngine 1 0)
      ∧ (checkForReset sampleConsts (sampleEnv 501 0) (sampleEngine 1 0))._lastActivity = 501
      ∧ checkForReset sampleConsts (sampleEnv 499 0) (sampleEngine 1 0) = sampleEngine 1 0
      ∧ checkForReset sampleConsts (sampleEnv 500 0) (sampleEngine 1 0) = sampleEngine 1 0
      ∧ checkForReset sampleConsts (sampleEnv 501 0) (handleReceived (sampleEngine 1 0))
          = handleReceived (sampleEngine 1 0) := by
  have h501 := ((checkForReset_spec sampleConsts (sampleEnv 501 0) (sampleEngine 1 0)).1
    rfl rfl).1 (by decide)
  refine ⟨h501, ?_, ?_, ?_, ?_⟩
  · rw [h501]; rfl
  · exact ((checkForReset_spec sampleConsts (sampleEnv 499 0) (sampleEngine 1 0)).1
      rfl rfl).2 (by decide)
  · exact ((checkForReset_spec sampleConsts (sampleEnv 500 0) (sampleEngine 1 0)).1
      rfl rfl).2 (by decide)
  · exact (checkForReset_spec sampleConsts (sampleEnv 501 0)
      (handleReceived (sampleEngine 1 0))).2.1 (Or.inr rfl)

/-! ## Reception, Anchor role -/

/-- Claim C1, as the code has it: in Anchor role with `_expectedMsgId = POLL`,
processing a received frame whose tag byte is `RANGE` sets `_protocolFailed`,
stores the radio's receive timestamp in `timeRangeReceived` and leaves the other
five timestamps (and every other field of the peer record) unchanged;
processing a `POLL` frame next clears `_protocolFailed`.  A pass of `loop`
with only the received flag set is this processing. -/
theorem anchor_range_before_poll (c : Consts) (p : Platform T) (env env2 : Env T)
    (s : Engine T) (htags : c.RANGE ≠ c.POLL) (hrole : s._type = c.ANCHOR)
    (hexp : s._expectedMsgId = c.POLL) (hrecv : s._receivedAck = true)
    (hframe : env.data 0 = c.RANGE) (hframe2 : env2.data 0 = c.POLL) :
    ∃ s1, loopReceived c p env s = some s1
      ∧ s1._protocolFailed = true
      ∧ s1.networkDevice
          = { s.networkDevice with timeRangeReceived := env.receiveTimestamp }
      ∧ (∃ s2, loopReceived c p env2 (handleReceived s1) = some s2
            ∧ s2._protocolFailed = false)
      ∧ (s._sentAck = false → loop c p env s = some s1) := by
  have hmis : ¬ c.RANGE = s._expectedMsgId := by rw [hexp]; exact htags
  have h1 : loopReceived c p env s
      = some (noteActivity env (transmitRangeFailed c
          { s with _receivedAck := false, data := env.data, _protocolFailed := true,
                   networkDevice :=
                     { s.networkDevice with timeRangeReceived := env.receiveTimestamp },
                   _expectedMsgId := c.POLL })) := by
    simp [loopReceived, hrecv, hrole, hframe, htags, hmis]
  refine ⟨_, h1, rfl, rfl, ?_, ?_⟩
  · simp [loopReceived, handleReceived, noteActivity, transmitRangeFailed, transmit,
      transmitPollAck, transmitDelayed, hrole, hframe2]
  · intro hsent
    rw [loop_of_received_only c p env s hsent hrecv, h1]

/-- Instance of C1 (amended) on the sample platform: an Anchor awaiting `POLL`
receives a `RANGE` frame with receive timestamp `7`, then a `POLL` frame. -/
theorem anchor_range_before_poll_witness :
    ∃ s1, loopReceived sampleConsts samplePlatform (sampleEnv 10 2)
              (handleReceived (sampleEngine 1 0)) = some s1
      ∧ s1._protocolFailed = true
      ∧ s1.networkDevice = { sampleDevice with timeRangeReceived := 7 }
      ∧ (∃ s2, loopReceived sampleConsts samplePlatform (sampleEnv 11 0)
                  (handleReceived s1) = some s2
            ∧ s2._protocolFailed = false)
      ∧ loop sampleConsts samplePlatform (sampleEnv 10 2)
            (handleReceived (sampleEngine 1 0)) = some s1 := by
  obtain ⟨s1, h1, h2, h3, h4, h5⟩ :=
    anchor_range_before_poll sampleConsts samplePlatform (sampleEnv 10 2) (sampleEnv 11 0)
      (handleReceived (sampleEngine 1 0)) (by decide) rfl rfl rfl rfl rfl
  exact ⟨s1, h1, h2, h3, h4, h5 rfl⟩

/-- Claim C1 as stated fails: an Anchor awaiting `POLL` whose peer record has
`timeRangeReceived = 0` receives a `RANGE` frame at receive timestamp `7`; no
result of the pass has `_protocolFailed` set and all six timestamps
unchanged. -/
theorem anchor_range_before_poll_alters_rangeReceived :
    ¬ ∃ s1, loop sampleConsts samplePlatform (sampleEnv 10 2)
              (handleReceived (sampleEngine 1 0)) = some s1
        ∧ s1._protocolFailed = true
        ∧ s1.networkDevice.timePollSent = sampleDevice.timePollSent
        ∧ s1.networkDevice.timePollReceived = sampleDevice.timePollReceived
        ∧ s1.networkDevice.timePollAckSent = sampleDevice.timePollAckSent
        ∧ s1.networkDevice.timePollAckReceived = sampleDevice.timePollAckReceived
        ∧ s1.networkDevice.timeRangeSent = sampleDevice.timeRangeSent
        ∧ s1.networkDevice.timeRangeReceived = sampleDevice.timeRangeReceived := by
  rintro ⟨s1, h, -, -, -, -, -, -, h6⟩
  have h1 : loop sampleConsts samplePlatform (sampleEnv 10 2)
      (handleReceived (sampleEngine 1 0))
      = some (noteActivity (sampleEnv 10 2) (transmitRangeFailed sampleConsts
          { handleReceived (sampleEngine 1 0) with
              _receivedAck := false, data := (sampleEnv 10 2).data, _protocolFailed := true,
              networkDevice := { sampleDevice with timeRangeReceived := 7 },
              _expectedMsgId := sampleConsts.POLL })) := by
    rw [loop_of_received_only _ _ _ _ rfl rfl]
    simp [loopReceived, handleReceived, sampleEngine, sampleEnv, sampleConsts]
  rw [h1] at h
  have h7 := congrArg (fun o => o.map (fun e => e.networkDevice.timeRangeReceived)) h
  simp [noteActivity, transmitRangeFailed, transmit] at h7
  rw [← h7] at h6
  exact absurd h6 (by decide)

/-- Claim C10: in Anchor role, whenever `_protocolFailed` holds after the
mismatch check (it was already set, or `_expectedMsgId` is not `RANGE`),
processing a received `RANGE` frame transmits exactly one frame, tagged
`RANGE_FAILED`, invokes no handler, changes nothing of the peer record except
`timeRangeReceived` (so range, powers, quality, `timePollSent`,
`timePollAckReceived`, `timeRangeSent` are unchanged), sets
`_expectedMsgId = POLL` and records the current time in `_lastActivity`. -/
theorem anchor_range_failed (c : Consts) (p : Platform T) (env : Env T) (s : Engine T)
    (htags : c.RANGE ≠ c.POLL) (hrole : s._type = c.ANCHOR) (hrecv : s._receivedAck = true)
    (hframe : env.data 0 = c.RANGE)
    (hfailed : s._protocolFailed = true ∨ s._expectedMsgId ≠ c.RANGE) :
    ∃ s1, loopReceived c p env s = some s1
      ∧ s1.calls = s.calls ++
          [Call.newTransmit, Call.setDefaults, Call.setData s1.data, Call.startTransmit]
      ∧ s1.data 0 = c.RANGE_FAILED
      ∧ s1.networkDevice
          = { s.networkDevice with timeRangeReceived := env.receiveTimestamp }
      ∧ s1._expectedMsgId = c.POLL
      ∧ s1._lastActivity = env.millis % 2 ^ 32
      ∧ s1._protocolFailed = true
      ∧ (s._sentAck = false → loop c p env s = some s1) := by
  have h1 : loopReceived c p env s
      = some (noteActivity env (transmitRangeFailed c
          { s with _receivedAck := false, data := env.data, _protocolFailed := true,
                   networkDevice :=
                     { s.networkDevice with timeRangeReceived := env.receiveTimestamp },
                   _expectedMsgId := c.POLL })) := by
    rcases hfailed with hf | hf
    · by_cases hm : c.RANGE = s._expectedMsgId
      · simp [loopReceived, hrecv, hrole, hframe, htags, hm.symm, hf]
      · simp [loopReceived, hrecv, hrole, hframe, htags, hm]
    · have hm : ¬ c.RANGE = s._expectedMsgId := fun h => hf h.symm
      simp [loopReceived, hrecv, hrole, hframe, htags, hm]
  refine ⟨_, h1, rfl, ?_, rfl, rfl, rfl, rfl, ?_⟩
  · simp [noteActivity, transmitRangeFailed, transmit, setByte]
  · intro hsent
    rw [loop_of_received_only c p env s hsent hrecv, h1]

/-- Instance of C10 on the sample platform: an Anchor awaiting `POLL` (so a
`RANGE` frame is a mismatch) receives a `RANGE` frame at clock value `10`. -/
theorem anchor_range_failed_witness :
    ∃ s1, loopReceived sampleConsts samplePlatform (sampleEnv 10 2)
              (handleReceived (sampleEngine 1 0)) = some s1
      ∧ s1.calls =
          [Call.newTransmit, Call.setDefaults, Call.setData s1.data, Call.startTransmit]
      ∧ s1.data 0 = 255
      ∧ s1.networkDevice = { sampleDevice with timeRangeReceived := 7 }
      ∧ s1._expectedMsgId = 0
      ∧ s1._lastActivity = 10
      ∧ s1._protocolFailed = true
      ∧ loop sampleConsts samplePlatform (sampleEnv 10 2)
            (handleReceived (sampleEngine 1 0)) = some s1 := by
  obtain ⟨s1, h1, h2, h3, h4, h5, h6, h7, h8⟩ :=
    anchor_range_failed sampleConsts samplePlatform (sampleEnv 10 2)
      (handleReceived (sampleEngine 1 0)) (by decide) rfl rfl rfl (Or.inr (by decide))
  exact ⟨s1, h1, h2, h3, h4, h5, h6, h7, h8 rfl⟩

/-! ## Reception, Tag role -/

/-- Claim C2: in Tag role, for every received frame whose tag byte differs
from `_expectedMsgId`, the processing sets `_expectedMsgId = POLL_ACK`,
transmits exactly one frame, tagged `POLL`, and does nothing else: the peer
record and `_lastActivity` are unchanged and no handler is invoked.  A pass of
`loop` with only the received flag set is this processing. -/
theorem tag_mismatch_resync (c : Consts) (p : Platform T) (env : Env T) (s : Engine T)
    (hroles : c.ANCHOR ≠ c.TAG) (hrole : s._type = c.TAG) (hrecv : s._receivedAck = true)
    (hmis : env.data 0 ≠ s._expectedMsgId) :
    ∃ s1, loopReceived c p env s = some s1
      ∧ s1 = { s with _receivedAck := false, _expectedMsgId := c.POLL_ACK,
                      data := setByte env.data 0 c.POLL,
                      calls := s.calls ++
                        [Call.newTransmit, Call.setDefaults,
                         Call.setData (setByte env.data 0 c.POLL), Call.startTransmit] }
      ∧ s1._expectedMsgId = c.POLL_ACK
      ∧ s1.calls = s.calls ++
          [Call.newTransmit, Call.setDefaults, Call.setData s1.data, Call.startTransmit]
      ∧ s1.data 0 = c.POLL
      ∧ s1.networkDevice = s.networkDevice
      ∧ s1._lastActivity = s._lastActivity
      ∧ (s._sentAck = false → loop c p env s = some s1) := by
  have hr : ¬ c.TAG = c.ANCHOR := fun h => hroles h.symm
  have h1 : loopReceived c p env s
      = some (transmitPoll c
          { s with _receivedAck := false, data := env.data, _expectedMsgId := c.POLL_ACK }) := by
    simp [loopReceived, hrecv, hrole, hr, hmis]
  refine ⟨_, h1, rfl, rfl, rfl, ?_, rfl, rfl, ?_⟩
  · simp [transmitPoll, transmit, setByte]
  · intro hsent
    rw [loop_of_received_only c p env s hsent hrecv, h1]

/-- Instance of C2 on the sample platform: a Tag awaiting `RANGE_REPORT`
receives a `POLL_ACK` frame. -/
theorem tag_mismatch_resync_witness :
    ∃ s1, loopReceived sampleConsts samplePlatform (sampleEnv 10 1)
              (handleReceived (sampleEngine 0 3)) = some s1
      ∧ s1._expectedMsgId = 1
      ∧ s1.calls =
          [Call.newTransmit, Call.setDefaults, Call.setData s1.data, Call.startTransmit]
      ∧ s1.data 0 = 0
      ∧ s1.networkDevice = sampleDevice
      ∧ s1._lastActivity = 0
      ∧ loop sampleConsts samplePlatform (sampleEnv 10 1)
            (handleReceived (sampleEngine 0 3)) = some s1 := by
  obtain ⟨s1, h1, -, h2, h3, h4, h5, h6, h7⟩ :=
    tag_mismatch_resync sampleConsts samplePlatform (sampleEnv 10 1)
      (handleReceived (sampleEngine 0 3)) (by decide) rfl rfl (by decide)
  exact ⟨s1, h1, h2, h3, h4, h5, h6, h7 rfl⟩

/-! ## Range report -/

theorem rangeRXCorrection_none (freq16 freq64 PRF : Fin 256) (RXPower : ℚ) :
    rangeRXCorrection freq16 freq64 PRF RXPower = none := by
  unfold rangeRXCorrection
  cases (if PRF = freq16 then computeRangeBias_16 RXPower
         else if PRF = freq64 then computeRangeBias_64 RXPower else some 0) <;> rfl

theorem anchor_range_ok_undefined (c : Consts) (p : Platform T) (env : Env T) (s : Engine T)
    (htags : c.RANGE ≠ c.POLL) (hrole : s._type = c.ANCHOR) (hrecv : s._receivedAck = true)
    (hframe : env.data 0 = c.RANGE) (hexp : s._expectedMsgId = c.RANGE)
    (hok : s._protocolFailed = false) :
    loopReceived c p env s = none := by
  simp [loopReceived, anchorRangeOk, rangeRXCorrection_none, hrecv, hrole, hframe, htags,
    hexp, hok]

/-- Claim C8, evaluated on the code: `rangeRXCorrection` ends without a
`return` for every pulse frequency and power, so an Anchor awaiting `RANGE`
with no failure flagged that receives a `RANGE` frame subtracts a bias that no
statement returned: the pass has no defined result. -/
theorem anchor_range_bias_not_returned :
    (∀ (freq16 freq64 PRF : Fin 256) (RXPower : ℚ),
        rangeRXCorrection freq16 freq64 PRF RXPower = none)
      ∧ loopReceived sampleConsts samplePlatform (sampleEnv 10 2)
          (handleReceived (sampleEngine 1 2)) = none
      ∧ loop sampleConsts samplePlatform (sampleEnv 10 2)
          (handleReceived (sampleEngine 1 2)) = none := by
  have h := anchor_range_ok_undefined sampleConsts samplePlatform (sampleEnv 10 2)
    (handleReceived (sampleEngine 1 2)) (by decide) rfl rfl rfl rfl rfl
  refine ⟨rangeRXCorrection_none, h, ?_⟩
  rw [loop_of_received_only _ _ _ _ rfl rfl, h]

/-- Claim C9: the frame written by `transmitRangeReport` carries the tag
`RANGE_REPORT` in byte 0, the bytes of the stored range in bytes 1-4 and the
bytes of the stored receive power in bytes 5-8, and is transmitted once; a Tag
with `_expectedMsgId = RANGE_REPORT` that processes this frame stores exactly
that range and power, invokes the handler once when one is registered, sends
one `POLL`, sets `_expectedMsgId = POLL_ACK` and records the current time. -/
theorem range_report_round_trip (c : Consts) (p : Platform T) (env : Env T)
    (a t : Engine T) (htags : c.RANGE_REPORT ≠ c.POLL_ACK) (hroles : c.ANCHOR ≠ c.TAG)
    (hrole : t._type = c.TAG) (hexp : t._expectedMsgId = c.RANGE_REPORT)
    (hrecv : t._receivedAck = true) (hframe : env.data = (transmitRangeReport c a).data) :
    (transmitRangeReport c a).calls = a.calls ++
        [Call.newTransmit, Call.setDefaults, Call.setData env.data, Call.startTransmit]
      ∧ env.data 0 = c.RANGE_REPORT
      ∧ (env.data 1 = a.networkDevice.range.b0 ∧ env.data 2 = a.networkDevice.range.b1
          ∧ env.data 3 = a.networkDevice.range.b2 ∧ env.data 4 = a.networkDevice.range.b3)
      ∧ (env.data 5 = a.networkDevice.RXPower.b0 ∧ env.data 6 = a.networkDevice.RXPower.b1
          ∧ env.data 7 = a.networkDevice.RXPower.b2 ∧ env.data 8 = a.networkDevice.RXPower.b3)
      ∧ ∃ t1, loopReceived c p env t = some t1
          ∧ t1.networkDevice
              = { t.networkDevice with range := a.networkDevice.range,
                                       RXPower := a.networkDevice.RXPower }
          ∧ t1.calls = t.calls ++ (if t._handleNewRange then [Call.handleNewRange] else [])
              ++ [Call.newTransmit, Call.setDefaults, Call.setData t1.data, Call.startTransmit]
          ∧ t1.data 0 = c.POLL
          ∧ t1._expectedMsgId = c.POLL_ACK
          ∧ t1._lastActivity = env.millis % 2 ^ 32
          ∧ (t._sentAck = false → loop c p env t = some t1) := by
  have hr : ¬ c.TAG = c.ANCHOR := fun h => hroles h.symm
  have hd : ∀ k, env.data k
      = memcpyInto (memcpyInto (setByte a.data 0 c.RANGE_REPORT) 1 4
          a.networkDevice.range.bytes) 5 4 a.networkDevice.RXPower.bytes k := by
    intro k; rw [hframe]; rfl
  have h0 : env.data 0 = c.RANGE_REPORT := by
    rw [hd]; simp [memcpyInto, setByte]
  have hrange : Float32.ofBytes (offset env.data 1) = a.networkDevice.range := by
    simp [Float32.ofBytes, offset, hd, memcpyInto, Float32.bytes]
  have hpower : Float32.ofBytes (offset env.data 5) = a.networkDevice.RXPower := by
    simp [Float32.ofBytes, offset, hd, memcpyInto, Float32.bytes]
  refine ⟨?_, h0, ?_, ?_, ?_⟩
  · rw [hframe]; rfl
  · simp [hd, memcpyInto, Float32.bytes]
  · simp [hd, memcpyInto, Float32.bytes]
  · have h1 : loopReceived c p env t
        = some (noteActivity env (transmitPoll c (callHandleNewRange
            { t with _receivedAck := false, data := env.data, _expectedMsgId := c.POLL_ACK,
                     networkDevice :=
                       { t.networkDevice with range := a.networkDevice.range,
                                              RXPower := a.networkDevice.RXPower } }))) := by
      simp [loopReceived, hrecv, hrole, hr, h0, hexp, htags, hrange, hpower]
    refine ⟨_, h1, ?_, ?_, ?_, ?_, ?_, ?_⟩
    · cases hh : t._handleNewRange <;>
        simp [noteActivity, transmitPoll, transmit, callHandleNewRange, hh]
    · cases hh : t._handleNewRange <;>
        simp [noteActivity, transmitPoll, transmit, callHandleNewRange, hh]
    · cases hh : t._handleNewRange <;>
        simp [noteActivity, transmitPoll, transmit, callHandleNewRange, hh, setByte]
    · cases hh : t._handleNewRange <;>
        simp [noteActivity, transmitPoll, transmit, callHandleNewRange, hh]
    · cases hh : t._handleNewRange <;>
        simp [noteActivity, transmitPoll, transmit, callHandleNewRange, hh]
    · intro hsent
      rw [loop_of_received_only c p env t hsent hrecv, h1]

/-- Instance of C9 on the sample platform: range bytes `1,2,3,4` and power
bytes `5,6,7,8` reach a Tag awaiting `RANGE_REPORT` with a registered handler. -/
theorem range_report_round_trip_witness :
    reportEnv.data 0 = 3
      ∧ (reportEnv.data 1 = 1 ∧ reportEnv.data 2 = 2 ∧ reportEnv.data 3 = 3
          ∧ reportEnv.data 4 = 4)
      ∧ (reportEnv.data 5 = 5 ∧ reportEnv.data 6 = 6 ∧ reportEnv.data 7 = 7
          ∧ reportEnv.data 8 = 8)
      ∧ ∃ t1, loopReceived sampleConsts samplePlatform reportEnv
                (handleReceived (sampleEngine 0 3)) = some t1
          ∧ t1.networkDevice
              = { sampleDevice with range := ⟨1, 2, 3, 4⟩, RXPower := ⟨5, 6, 7, 8⟩ }
          ∧ t1.calls = [Call.handleNewRange, Call.newTransmit, Call.setDefaults,
                        Call.setData t1.data, Call.startTransmit]
          ∧ t1.data 0 = 0
          ∧ t1._expectedMsgId = 1
          ∧ t1._lastActivity = 10
          ∧ loop sampleConsts samplePlatform reportEnv
                (handleReceived (sampleEngine 0 3)) = some t1 := by
  obtain ⟨-, h0, h1, h2, t1, h3, h4, h5, h6, h7, h8, h9⟩ :=
    range_report_round_trip sampleConsts samplePlatform reportEnv reportAnchor
      (handleReceived (sampleEngine 0 3)) (by decide) (by decide) rfl rfl rfl rfl
  exact ⟨h0, h1, h2, t1, h3, h4, h5, h6, h7, h8, h9 rfl⟩

/-! ## Reception of `POLL` (Anchor) and of `POLL_ACK`, `RANGE_FAILED` (Tag) -/

/-- Claim C11: in Anchor role, whatever `_expectedMsgId` and `_protocolFailed`
were, processing a received `POLL` frame ends with `_protocolFailed = false`
and `_expectedMsgId = RANGE`, stores the radio's receive timestamp in
`timePollReceived` and changes nothing else of the peer record, transmits
exactly one frame, tagged `POLL_ACK` and delayed by `_replyDelayTimeUS`
microseconds, and records the current time in `_lastActivity`. -/
theorem anchor_poll (c : Consts) (p : Platform T) (env : Env T) (s : Engine T)
    (hrole : s._type = c.ANCHOR) (hrecv : s._receivedAck = true)
    (hframe : env.data 0 = c.POLL) :
    ∃ s1, loopReceived c p env s = some s1
      ∧ s1._protocolFailed = false
      ∧ s1._expectedMsgId = c.RANGE
      ∧ s1.networkDevice
          = { s.networkDevice with timePollReceived := env.receiveTimestamp }
      ∧ s1.calls = s.calls ++
          [Call.newTransmit, Call.setDefaults,
           Call.setDelay (p.ofMicroseconds s._replyDelayTimeUS),
           Call.setData s1.data, Call.startTransmit]
      ∧ s1.data 0 = c.POLL_ACK
      ∧ s1._lastActivity = env.millis % 2 ^ 32
      ∧ (s._sentAck = false → loop c p env s = some s1) := by
  have h1 : loopReceived c p env s
      = some (noteActivity env (transmitPollAck c p
          { s with _receivedAck := false, data := env.data, _protocolFailed := false,
                   networkDevice :=
                     { s.networkDevice with timePollReceived := env.receiveTimestamp },
                   _expectedMsgId := c.RANGE })) := by
    by_cases hm : c.POLL = s._expectedMsgId
    · simp [loopReceived, hrecv, hrole, hframe, hm.symm]
    · simp [loopReceived, hrecv, hrole, hframe, hm]
  refine ⟨_, h1, rfl, rfl, rfl, rfl, ?_, rfl, ?_⟩
  · simp [noteActivity, transmitPollAck, transmitDelayed, setByte]
  · intro hsent
    rw [loop_of_received_only c p env s hsent hrecv, h1]

/-- Instance of C11 on the sample platform: an Anchor that awaits `RANGE` with
reply delay `3000` receives a `POLL` frame at receive timestamp `7`, clock
value `10`. -/
theorem anchor_poll_witness :
    ∃ s1, loopReceived sampleConsts samplePlatform (sampleEnv 10 0)
              (handleReceived (sampleEngine 1 2)) = some s1
      ∧ s1._protocolFailed = false
      ∧ s1._expectedMsgId = 2
      ∧ s1.networkDevice = { sampleDevice with timePollReceived := 7 }
      ∧ s1.calls =
          [Call.newTransmit, Call.setDefaults, Call.setDelay (3000 * 63898),
           Call.setData s1.data, Call.startTransmit]
      ∧ s1.data 0 = 1
      ∧ s1._lastActivity = 10
      ∧ loop sampleConsts samplePlatform (sampleEnv 10 0)
            (handleReceived (sampleEngine 1 2)) = some s1 := by
  obtain ⟨s1, h1, h2, h3, h4, h5, h6, h7, h8⟩ :=
    anchor_poll sampleConsts samplePlatform (sampleEnv 10 0)
      (handleReceived (sampleEngine 1 2)) rfl rfl rfl
  exact ⟨s1, h1, h2, h3, h4, h5, h6, h7, h8 rfl⟩

theorem tag_range_failed_is_mismatch (c : Consts) (p : Platform T) (env : Env T)
    (s : Engine T) (hroles : c.ANCHOR ≠ c.TAG) (hrole : s._type = c.TAG)
    (hrecv : s._receivedAck = true) (hframe : env.data 0 = c.RANGE_FAILED)
    (hexp : s._expectedMsgId = c.POLL_ACK ∨ s._expectedMsgId = c.RANGE_REPORT)
    (h1 : c.RANGE_FAILED ≠ c.POLL_ACK) (h2 : c.RANGE_FAILED ≠ c.RANGE_REPORT) :
    loopReceived c p env s
      = some (transmitPoll c
          { s with _receivedAck := false, data := env.data, _expectedMsgId := c.POLL_ACK }) := by
  have hr : ¬ c.TAG = c.ANCHOR := fun h => hroles h.symm
  have hmis : ¬ c.RANGE_FAILED = s._expectedMsgId := by
    rcases hexp with h | h <;> rw [h] <;> assumption
  simp [loopReceived, hrecv, hrole, hr, hframe, hmis]

/-- Claim C12, evaluated on the code: a Tag awaiting `POLL_ACK` with
`_lastActivity = 0` receives a `RANGE_FAILED` frame at clock value `10`.  The
frame differs from `_expectedMsgId`, so the mismatch arm runs and returns: one
`POLL` is sent, `_expectedMsgId = POLL_ACK`, the peer record is unchanged, but
`_lastActivity` stays `0`; the arm for `RANGE_FAILED`, which calls
`noteActivity`, is not reached.  The same holds when `RANGE_REPORT` is
awaited. -/
theorem tag_range_failed_keeps_lastActivity :
    (∃ s1, loop sampleConsts samplePlatform (sampleEnv 10 255)
              (handleReceived (sampleEngine 0 1)) = some s1
        ∧ s1._expectedMsgId = 1 ∧ s1.data 0 = 0
        ∧ s1.calls =
            [Call.newTransmit, Call.setDefaults, Call.setData s1.data, Call.startTransmit]
        ∧ s1.networkDevice = sampleDevice
        ∧ s1._lastActivity = 0 ∧ s1._lastActivity ≠ (sampleEnv 10 255).millis % 2 ^ 32)
      ∧ (∃ s1, loop sampleConsts samplePlatform (sampleEnv 10 255)
              (handleReceived (sampleEngine 0 3)) = some s1
        ∧ s1._expectedMsgId = 1
        ∧ s1._lastActivity = 0 ∧ s1._lastActivity ≠ (sampleEnv 10 255).millis % 2 ^ 32) := by
  have ha := tag_range_failed_is_mismatch sampleConsts samplePlatform (sampleEnv 10 255)
    (handleReceived (sampleEngine 0 1)) (by decide) rfl rfl rfl (Or.inl rfl)
    (by decide) (by decide)
  have hb := tag_range_failed_is_mismatch sampleConsts samplePlatform (sampleEnv 10 255)
    (handleReceived (sampleEngine 0 3)) (by decide) rfl rfl rfl (Or.inr rfl)
    (by decide) (by decide)
  constructor
  · refine ⟨_, (loop_of_received_only _ _ _ _ rfl rfl).trans ha, rfl, ?_, rfl, rfl, rfl, ?_⟩
    · simp [transmitPoll, transmit, setByte, sampleConsts]
    · simp [transmitPoll, transmit, handleReceived, sampleEngine, sampleEnv]
  · refine ⟨_, (loop_of_received_only _ _ _ _ rfl rfl).trans hb, rfl, rfl, ?_⟩
    simp [transmitPoll, transmit, handleReceived, sampleEngine, sampleEnv]

/-- Claim C13: in Tag role with `_expectedMsgId = POLL_ACK`, processing a
received `POLL_ACK` frame stores the radio's receive timestamp in
`timePollAckReceived`, stores the scheduled transmit time returned by
`DW1000.setDelay` in `timeRangeSent`, sets `_expectedMsgId = RANGE_REPORT`,
records the current time, and transmits exactly one frame: byte 0 is `RANGE`,
the five bytes at offset 1 encode `timePollSent`, those at offset 6 the
captured `timePollAckReceived`, those at offset 11 the stored
`timeRangeSent`. -/
theorem tag_poll_ack (c : Consts) (p : Platform T) (env : Env T) (s : Engine T)
    (hroles : c.ANCHOR ≠ c.TAG) (hrole : s._type = c.TAG)
    (hexp : s._expectedMsgId = c.POLL_ACK) (hrecv : s._receivedAck = true)
    (hframe : env.data 0 = c.POLL_ACK) :
    ∃ s1, loopReceived c p env s = some s1
      ∧ s1.networkDevice
          = { s.networkDevice with
                timePollAckReceived := env.receiveTimestamp,
                timeRangeSent := env.setDelay (p.ofMicroseconds s._replyDelayTimeUS) }
      ∧ s1._expectedMsgId = c.RANGE_REPORT
      ∧ s1._lastActivity = env.millis % 2 ^ 32
      ∧ s1.calls = s.calls ++
          [Call.setDelay (p.ofMicroseconds s._replyDelayTimeUS),
           Call.newTransmit, Call.setDefaults, Call.setData s1.data, Call.startTransmit]
      ∧ s1.data 0 = c.RANGE
      ∧ (∀ k, k < 5 →
          offset s1.data 1 k = p.getTimestamp s.networkDevice.timePollSent k
            ∧ offset s1.data 6 k = p.getTimestamp env.receiveTimestamp k
            ∧ offset s1.data 11 k = p.getTimestamp s1.networkDevice.timeRangeSent k)
      ∧ (s._sentAck = false → loop c p env s = some s1) := by
  have hr : ¬ c.TAG = c.ANCHOR := fun h => hroles h.symm
  have h1 : loopReceived c p env s
      = some (noteActivity env (transmitRange c p env
          { s with _receivedAck := false, data := env.data,
                   networkDevice :=
                     { s.networkDevice with timePollAckReceived := env.receiveTimestamp },
                   _expectedMsgId := c.RANGE_REPORT })) := by
    simp [loopReceived, hrecv, hrole, hr, hframe, hexp]
  refine ⟨_, h1, rfl, rfl, rfl, ?_, ?_, ?_, ?_⟩
  · simp [noteActivity, transmitRange, transmit]
  · simp [noteActivity, transmitRange, transmit, memcpyInto, setByte]
  · intro k hk
    have e1 : 1 + k - 1 = k := by omega
    have e6 : 6 + k - 6 = k := by omega
    have e11 : 11 + k - 11 = k := by omega
    have n6 : ¬ (11 ≤ 6 + k) := by omega
    have n1 : ¬ (11 ≤ 1 + k) := by omega
    have n1' : ¬ (6 ≤ 1 + k) := by omega
    have l6 : 6 + k < 6 + 5 := by omega
    have l1 : 1 + k < 1 + 5 := by omega
    have l11 : 11 + k < 11 + 5 := by omega
    simp [noteActivity, transmitRange, transmit, memcpyInto, offset, e1, e6, e11, n6, n1, n1',
      l6, l1, l11]
  · intro hsent
    rw [loop_of_received_only c p env s hsent hrecv, h1]

/-- Instance of C13 on the sample platform: a Tag awaiting `POLL_ACK` with
reply delay `3000` receives a `POLL_ACK` frame at receive timestamp `7`; the
scheduled transmit time is `3000 * 63898 + 9`. -/
theorem tag_poll_ack_witness :
    ∃ s1, loopReceived sampleConsts samplePlatform (sampleEnv 10 1)
              (handleReceived (sampleEngine 0 1)) = some s1
      ∧ s1.networkDevice
          = { sampleDevice with timePollAckReceived := 7,
                                timeRangeSent := 3000 * 63898 + 9 }
      ∧ s1._expectedMsgId = 3
      ∧ s1._lastActivity = 10
      ∧ s1.calls =
          [Call.setDelay (3000 * 63898),
           Call.newTransmit, Call.setDefaults, Call.setData s1.data, Call.startTransmit]
      ∧ s1.data 0 = 2
      ∧ s1.data 6 = 7
      ∧ loop sampleConsts samplePlatform (sampleEnv 10 1)
            (handleReceived (sampleEngine 0 1)) = some s1 := by
  obtain ⟨s1, h1, h2, h3, h4, h5, h6, h7, h8⟩ :=
    tag_poll_ack sampleConsts samplePlatform (sampleEnv 10 1)
      (handleReceived (sampleEngine 0 1)) (by decide) rfl rfl rfl rfl
  refine ⟨s1, h1, h2, h3, h4, h5, h6, ?_, h8 rfl⟩
  have h := (h7 0 (by decide)).2.1
  simp only [offset] at h
  rw [h]
  decide

/-! ## Curve selection, watchdog reset, send completion -/

/-- Claim C14, evaluated on the code: with the 16 MHz constant `1` and the
64 MHz constant `2`, at receive power `-50` the curves give `-0.198` and
`-0.110`, but `rangeRXCorrection` hands neither to its caller: it ends without
a `return` statement whatever the pulse frequency and the power are. -/
theorem rangeRXCorrection_returns_no_curve_value :
    computeRangeBias_16 (-50) = some (-198 / 1000)
      ∧ rangeRXCorrection 1 2 1 (-50) = none
      ∧ computeRangeBias_64 (-50) = some (-110 / 1000)
      ∧ rangeRXCorrection 1 2 2 (-50) = none
      ∧ ∀ (freq16 freq64 PRF : Fin 256) (RXPower : ℚ),
          rangeRXCorrection freq16 freq64 PRF RXPower = none := by
  have h0 : at_ _bias_RSL 0 = -61 := by norm_num [at_, _bias_RSL]
  have hx : (-50 : ℚ) ≥ at_ _bias_RSL 0 := by rw [h0]; norm_num
  refine ⟨?_, rangeRXCorrection_none _ _ _ _, ?_, rangeRXCorrection_none _ _ _ _,
    rangeRXCorrection_none⟩
  · simp only [computeRangeBias_16, if_pos hx]
    norm_num [at_, _bias_PRF_16]
  · simp only [computeRangeBias_64, if_pos hx]
    norm_num [at_, _bias_PRF_64]

theorem elapsed32_self (now : Nat) : elapsed32 now (now % 2 ^ 32) = 0 := by
  unfold elapsed32
  omega

/-- Claim C15: `resetInactive` in Anchor role sets `_expectedMsgId = POLL`,
restarts continuous reception and transmits nothing; in Tag role it sets
`_expectedMsgId = POLL_ACK` and transmits exactly one frame, tagged `POLL`; in
every role it records the current time in `_lastActivity` and leaves the peer
record and `_protocolFailed` unchanged, and a `checkForReset` that follows at
the same clock value performs no second reset. -/
theorem resetInactive_spec (c : Consts) (env : Env T) (s : Engine T) :
    (s._type = c.ANCHOR →
        resetInactive c env s
          = { s with _expectedMsgId := c.POLL,
                     _lastActivity := env.millis % 2 ^ 32,
                     calls := s.calls ++
                       [Call.newReceive, Call.setDefaults, Call.receivePermanently true,
                        Call.startReceive] })
      ∧ (c.ANCHOR ≠ c.TAG → s._type = c.TAG →
        resetInactive c env s
          = { s with _expectedMsgId := c.POLL_ACK,
                     _lastActivity := env.millis % 2 ^ 32,
                     data := setByte s.data 0 c.POLL,
                     calls := s.calls ++
                       [Call.newTransmit, Call.setDefaults,
                        Call.setData (setByte s.data 0 c.POLL), Call.startTransmit] }
          ∧ (resetInactive c env s).data 0 = c.POLL)
      ∧ (resetInactive c env s)._lastActivity = env.millis % 2 ^ 32
      ∧ (resetInactive c env s).networkDevice = s.networkDevice
      ∧ (resetInactive c env s)._protocolFailed = s._protocolFailed
      ∧ checkForReset c env (resetInactive c env s) = resetInactive c env s := by
  have hlast : (resetInactive c env s)._lastActivity = env.millis % 2 ^ 32 := rfl
  have hrp : ¬ (resetInactive c env s)._resetPeriod < 0 := Nat.not_lt_zero _
  refine ⟨?_, ?_, hlast, ?_, ?_, ?_⟩
  · intro hrole
    simp [resetInactive, hrole, receiver, noteActivity]
  · intro hroles hrole
    have hr : ¬ c.TAG = c.ANCHOR := fun h => hroles h.symm
    constructor
    · simp [resetInactive, hrole, hr, transmitPoll, transmit, noteActivity]
    · simp [resetInactive, hrole, hr, transmitPoll, transmit, noteActivity, setByte]
  · unfold resetInactive
    split
    · rfl
    · split <;> rfl
  · unfold resetInactive
    split
    · rfl
    · split <;> rfl
  · simp only [checkForReset, toULong_toLong_sub, hlast, elapsed32_self]
    simp

/-- Instance of C15 on the sample platform at clock value `501`, for an Anchor
and for a Tag. -/
theorem resetInactive_spec_witness :
    resetInactive sampleConsts (sampleEnv 501 0) (sampleEngine 1 2)
        = { sampleEngine 1 2 with
              _expectedMsgId := 0, _lastActivity := 501,
              calls := [Call.newReceive, Call.setDefaults, Call.receivePermanently true,
                        Call.startReceive] }
      ∧ (resetInactive sampleConsts (sampleEnv 501 0) (sampleEngine 0 3))._expectedMsgId = 1
      ∧ (resetInactive sampleConsts (sampleEnv 501 0) (sampleEngine 0 3)).calls
          = [Call.newTransmit, Call.setDefaults,
             Call.setData (setByte (sampleEngine 0 3).data 0 0), Call.startTransmit]
      ∧ (resetInactive sampleConsts (sampleEnv 501 0) (sampleEngine 0 3)).data 0 = 0
      ∧ (resetInactive sampleConsts (sampleEnv 501 0) (sampleEngine 0 3))._lastActivity = 501
      ∧ checkForReset sampleConsts (sampleEnv 501 0)
            (resetInactive sampleConsts (sampleEnv 501 0) (sampleEngine 0 3))
          = resetInactive sampleConsts (sampleEnv 501 0) (sampleEngine 0 3) := by
  have ha := (resetInactive_spec sampleConsts (sampleEnv 501 0) (sampleEngine 1 2)).1 rfl
  have ht := resetInactive_spec sampleConsts (sampleEnv 501 0) (sampleEngine 0 3)
  have ht2 := ht.2.1 (by decide) rfl
  refine ⟨ha, ?_, ?_, ht2.2, ht.2.2.1, ht.2.2.2.2.2⟩
  · rw [ht2.1]; rfl
  · rw [ht2.1]; rfl

/-- Claim C16: with the sent flag set, the send-completion block clears the
flag and stores the radio's transmit timestamp in exactly one field chosen by
role and byte 0 of the buffer: `timePollSent` for Tag and `POLL`,
`timeRangeSent` for Tag and `RANGE`, `timePollAckSent` for Anchor and
`POLL_ACK`; for every other combination it stores no timestamp.  The other
timestamps, range, receive power, `_expectedMsgId` and `_protocolFailed` are
unchanged.  A pass of `loop` with only the sent flag set is this block. -/
theorem loopSent_spec (c : Consts) (p : Platform T) (env : Env T) (s : Engine T)
    (hsent : s._sentAck = true) :
    (c.ANCHOR ≠ c.TAG → s._type = c.TAG → s.data 0 = c.POLL →
        loopSent c env s
          = { s with _sentAck := false,
                     networkDevice :=
                       { s.networkDevice with timePollSent := env.transmitTimestamp } })
      ∧ (c.ANCHOR ≠ c.TAG → c.RANGE ≠ c.POLL → s._type = c.TAG → s.data 0 = c.RANGE →
        loopSent c env s
          = { s with _sentAck := false,
                     _lastActivity := env.millis % 2 ^ 32,
                     networkDevice :=
                       { s.networkDevice with timeRangeSent := env.transmitTimestamp } })
      ∧ (s._type = c.ANCHOR → s.data 0 = c.POLL_ACK →
        loopSent c env s
          = { s with _sentAck := false,
                     _lastActivity := env.millis % 2 ^ 32,
                     networkDevice :=
                       { s.networkDevice with timePollAckSent := env.transmitTimestamp } })
      ∧ ((s._type = c.ANCHOR ∧ s.data 0 ≠ c.POLL_ACK)
          ∨ (s._type ≠ c.ANCHOR ∧ s._type = c.TAG ∧ s.data 0 ≠ c.POLL ∧ s.data 0 ≠ c.RANGE)
          ∨ (s._type ≠ c.ANCHOR ∧ s._type ≠ c.TAG) →
        loopSent c env s = { s with _sentAck := false })
      ∧ (loopSent c env s)._sentAck = false
      ∧ (loopSent c env s)._expectedMsgId = s._expectedMsgId
      ∧ (loopSent c env s)._protocolFailed = s._protocolFailed
      ∧ (loopSent c env s).networkDevice.range = s.networkDevice.range
      ∧ (loopSent c env s).networkDevice.RXPower = s.networkDevice.RXPower
      ∧ (s._receivedAck = false → loop c p env s = some (loopSent c env s)) := by
  have hfield : (loopSent c env s)._sentAck = false
      ∧ (loopSent c env s)._expectedMsgId = s._expectedMsgId
      ∧ (loopSent c env s)._protocolFailed = s._protocolFailed
      ∧ (loopSent c env s)._receivedAck = s._receivedAck
      ∧ (loopSent c env s).networkDevice.range = s.networkDevice.range
      ∧ (loopSent c env s).networkDevice.RXPower = s.networkDevice.RXPower := by
    unfold loopSent
    simp only [hsent, if_true]
    repeat' split
    all_goals exact ⟨rfl, rfl, rfl, rfl, rfl, rfl⟩
  refine ⟨?_, ?_, ?_, ?_, hfield.1, hfield.2.1, hfield.2.2.1, hfield.2.2.2.2.1,
    hfield.2.2.2.2.2, ?_⟩
  · intro hroles hrole hd
    have hr : ¬ c.TAG = c.ANCHOR := fun h => hroles h.symm
    simp [loopSent, hsent, hrole, hr, hd]
  · intro hroles htags hrole hd
    have hr : ¬ c.TAG = c.ANCHOR := fun h => hroles h.symm
    simp [loopSent, hsent, hrole, hr, hd, htags, noteActivity]
  · intro hrole hd
    simp [loopSent, hsent, hrole, hd, noteActivity]
  · intro h
    rcases h with ⟨h1, h2⟩ | ⟨h1, h2, h3, h4⟩ | ⟨h1, h2⟩
    · simp [loopSent, hsent, h1, h2]
    · have hr : ¬ c.TAG = c.ANCHOR := by rw [← h2]; exact h1
      simp [loopSent, hsent, h2, hr, h3, h4]
    · simp [loopSent, hsent, h1, h2]
  · intro hrecv
    have hcheck : checkForReset c env s = s := by simp [checkForReset, hsent]
    have hr2 : (loopSent c env s)._receivedAck = false := by rw [hfield.2.2.2.1, hrecv]
    simp [loop, hcheck, loopReceived, hr2]

/-- Instance of C16 on the sample platform with transmit timestamp `5` at
clock value `10`: Tag with `POLL`, Tag with `RANGE`, Anchor with `POLL_ACK`,
and Anchor with `POLL` (no timestamp stored). -/
theorem loopSent_spec_witness :
    loopSent sampleConsts (sampleEnv 10 0) (sentEngine 0 0)
        = { sentEngine 0 0 with
              _sentAck := false,
              networkDevice := { sampleDevice with timePollSent := 5 } }
      ∧ loopSent sampleConsts (sampleEnv 10 0) (sentEngine 0 2)
        = { sentEngine 0 2 with
              _sentAck := false, _lastActivity := 10,
              networkDevice := { sampleDevice with timeRangeSent := 5 } }
      ∧ loopSent sampleConsts (sampleEnv 10 0) (sentEngine 1 1)
        = { sentEngine 1 1 with
              _sentAck := false, _lastActivity := 10,
              networkDevice := { sampleDevice with timePollAckSent := 5 } }
      ∧ loopSent sampleConsts (sampleEnv 10 0) (sentEngine 1 0)
        = { sentEngine 1 0 with _sentAck := false }
      ∧ loop sampleConsts samplePlatform (sampleEnv 10 0) (sentEngine 0 0)
        = some (loopSent sampleConsts (sampleEnv 10 0) (sentEngine 0 0)) :=
  ⟨(loopSent_spec sampleConsts samplePlatform (sampleEnv 10 0) (sentEngine 0 0) rfl).1
      (by decide) rfl rfl,
   (loopSent_spec sampleConsts samplePlatform (sampleEnv 10 0) (sentEngine 0 2) rfl).2.1
      (by decide) (by decide) rfl rfl,
   (loopSent_spec sampleConsts samplePlatform (sampleEnv 10 0) (sentEngine 1 1) rfl).2.2.1
      rfl rfl,
   (loopSent_spec sampleConsts samplePlatform (sampleEnv 10 0) (sentEngine 1 0) rfl).2.2.2.1
      (Or.inl ⟨rfl, by decide⟩),
   (loopSent_spec sampleConsts samplePlatform (sampleEnv 10 0) (sentEngine 0 0)
      rfl).2.2.2.2.2.2.2.2.2 rfl⟩

/-! ## Start-up -/

theorem loopSent_frame (c : Consts) (env : Env T) (s : Engine T) :
    (loopSent c env s)._type = s._type
      ∧ (loopSent c env s)._expectedMsgId = s._expectedMsgId
      ∧ (loopSent c env s)._protocolFailed = s._protocolFailed
      ∧ (loopSent c env s)._receivedAck = s._receivedAck
      ∧ (loopSent c env s).calls = s.calls := by
  unfold loopSent
  split
  · dsimp only
    repeat' split
    all_goals exact ⟨rfl, rfl, rfl, rfl, rfl⟩
  · exact ⟨rfl, rfl, rfl, rfl, rfl⟩

theorem loop_of_sent_only (c : Consts) (p : Platform T) (env : Env T) (s : Engine T)
    (hsent : s._sentAck = true) (hrecv : s._receivedAck = false) :
    loop c p env s = some (loopSent c env s) := by
  have hcheck : checkForReset c env s = s := by simp [checkForReset, hsent]
  have hr2 : (loopSent c env s)._receivedAck = false := by
    rw [(loopSent_frame c env s).2.2.2.1, hrecv]
  simp [loop, hcheck, loopReceived, hr2]

theorem startAsTag_fields (c : Consts) (env : Env T) (myDevice nd : DW1000Device T)
    (s : Engine T) :
    (startAsTag c env myDevice nd s)._expectedMsgId = s._expectedMsgId
      ∧ (startAsTag c env myDevice nd s)._currentAddress = s._currentAddress
      ∧ (startAsTag c env myDevice nd s)._type = c.TAG
      ∧ (startAsTag c env myDevice nd s).data 0 = c.POLL :=
  ⟨rfl, rfl, rfl, by simp [startAsTag, transmitPoll, transmit, setByte]⟩

theorem startAsAnchor_currentAddress (c : Consts) (env : Env T)
    (myDevice nd : DW1000Device T) (s : Engine T) (Address : Buffer) (k : Nat) (hk : k < 8) :
    getCurrentAddress (startAsAnchor c env myDevice nd s) Address k = myDevice.address k := by
  simp [getCurrentAddress, startAsAnchor, generalStart, receiver, noteActivity, memcpyInto, hk]

/-- Claim C17, evaluated on the code: `startAsTag` sends its first `POLL`
without assigning `_expectedMsgId`, which keeps the value it had.  Started from
the static state, where it is `0`, with tags `POLL_ACK = 1` and
`RANGE_REPORT = 3`, the state after `startAsTag` awaits neither `POLL_ACK` nor
`RANGE_REPORT`, and neither does the state after the following pass of `loop`
that handles the completed transmission. -/
theorem startAsTag_keeps_expectedMsgId :
    (∀ (c : Consts) (env : Env Int) (myDevice nd : DW1000Device Int) (s : Engine Int),
        (startAsTag c env myDevice nd s)._expectedMsgId = s._expectedMsgId)
      ∧ (startAsTag sampleConsts (sampleEnv 0 0) sampleMyDevice sampleDevice
            (initialEngine sampleDevice))._type = sampleConsts.TAG
      ∧ (startAsTag sampleConsts (sampleEnv 0 0) sampleMyDevice sampleDevice
            (initialEngine sampleDevice))._expectedMsgId = 0
      ∧ (0 : Byte) ≠ sampleConsts.POLL_ACK ∧ (0 : Byte) ≠ sampleConsts.RANGE_REPORT
      ∧ ∃ s1, loop sampleConsts samplePlatform (sampleEnv 1 0)
                (handleSent (startAsTag sampleConsts (sampleEnv 0 0) sampleMyDevice sampleDevice
                  (initialEngine sampleDevice))) = some s1
          ∧ s1._expectedMsgId = 0 := by
  refine ⟨fun c env myDevice nd s => rfl, rfl, rfl, by decide, by decide, ?_⟩
  exact ⟨_, loop_of_sent_only _ _ _ _ rfl rfl, (loopSent_frame _ _ _).2.1⟩

/-- Claim C18, evaluated on the code: after `startAsAnchor` with a local
device whose address bytes are `1,...,8`, `getCurrentAddress` writes these
eight bytes; after `startAsTag` with the same device, from the static state,
it writes eight zero bytes, because `startAsTag` never copies the address
into `_currentAddress`. -/
theorem startAsTag_leaves_currentAddress :
    (∀ k : Fin 8,
        getCurrentAddress (startAsAnchor sampleConsts (sampleEnv 0 0) sampleMyDevice
            sampleDevice (initialEngine sampleDevice)) (fun _ => 255) k.val
          = sampleMyDevice.address k.val)
      ∧ (∀ k : Fin 8,
        getCurrentAddress (startAsTag sampleConsts (sampleEnv 0 0) sampleMyDevice
            sampleDevice (initialEngine sampleDevice)) (fun _ => 255) k.val = 0)
      ∧ sampleMyDevice.address 0 = 1
      ∧ (∀ (c : Consts) (env : Env Int) (myDevice nd : DW1000Device Int) (s : Engine Int),
        (startAsTag c env myDevice nd s)._currentAddress = s._currentAddress) := by
  refine ⟨?_, ?_, rfl, fun c env myDevice nd s => rfl⟩
  · intro k
    exact startAsAnchor_currentAddress _ _ _ _ _ _ _ k.isLt
  · intro k
    have hk := k.isLt
    simp [getCurrentAddress, memcpyInto, hk, (startAsTag_fields _ _ _ _ _).2.1, initialEngine]

/-! ## Sequencing of the Anchor -/

theorem loop_eq_loopWith (c : Consts) (p : Platform T) (env : Env T) (s : Engine T) :
    loop c p env s
      = loopWith (rangeRXCorrection c.TX_PULSE_FREQ_16MHZ c.TX_PULSE_FREQ_64MHZ) c p env s :=
  rfl

theorem checkForReset_eq (c : Consts) (env : Env T) (s : Engine T) :
    checkForReset c env s = if resetFires env s then resetInactive c env s else s := by
  unfold checkForReset resetFires
  by_cases h1 : (!s._sentAck && !s._receivedAck) = true
  · by_cases h2 : toULong (toLong env.millis - (s._lastActivity : Int)) > s._resetPeriod
    · simp [h1, h2]
    · simp [h1, h2]
  · simp [h1]

theorem noteActivity_frame (env : Env T) (s : Engine T) :
    (noteActivity env s)._type = s._type
      ∧ (noteActivity env s)._expectedMsgId = s._expectedMsgId
      ∧ (noteActivity env s).calls = s.calls :=
  ⟨rfl, rfl, rfl⟩

theorem report_frame (c : Consts) (s : Engine T) :
    (callHandleNewRange (transmitRangeReport c s))._type = s._type
      ∧ (callHandleNewRange (transmitRangeReport c s))._expectedMsgId = s._expectedMsgId
      ∧ (callHandleNewRange (transmitRangeReport c s)).calls
          = s.calls ++
              ([Call.newTransmit, Call.setDefaults, Call.setData (transmitRangeReport c s).data,
                Call.startTransmit]
                ++ (if s._handleNewRange then [Call.handleNewRange] else [])) := by
  cases hh : s._handleNewRange <;>
    simp [callHandleNewRange, transmitRangeReport, transmit, hh]

theorem anchor_received (corr : Byte → ℚ → Option ℚ) (c : Consts) (p : Platform T)
    (env : Env T) (m s1 : Engine T) (h1 : c.RANGE ≠ c.POLL) (h2 : c.POLL_ACK ≠ c.RANGE_REPORT)
    (h3 : c.RANGE_FAILED ≠ c.RANGE_REPORT) (hrole : m._type = c.ANCHOR)
    (hrecv : m._receivedAck = true) (h : loopReceivedWith corr c p env m = some s1) :
    s1._type = c.ANCHOR
      ∧ (s1._expectedMsgId = c.RANGE → s1._protocolFailed = false → env.data 0 = c.POLL)
      ∧ ∃ suffix, s1.calls = m.calls ++ suffix
          ∧ (reportsRange c suffix = true →
              env.data 0 = c.RANGE ∧ m._expectedMsgId = c.RANGE ∧ m._protocolFailed = false)
          ∧ (env.data 0 = c.RANGE →
              ¬ (m._expectedMsgId = c.RANGE ∧ m._protocolFailed = false) →
              suffix = [Call.newTransmit, Call.setDefaults, Call.setData s1.data,
                        Call.startTransmit]
                ∧ s1.data 0 = c.RANGE_FAILED) := by
  by_cases ht : env.data 0 = c.POLL
  · have hne : env.data 0 ≠ c.RANGE := by rw [ht]; exact fun e => h1 e.symm
    have e1 : loopReceivedWith corr c p env m
        = some (noteActivity env (transmitPollAck c p
            { m with _receivedAck := false, data := env.data, _protocolFailed := false,
                     networkDevice :=
                       { m.networkDevice with timePollReceived := env.receiveTimestamp },
                     _expectedMsgId := c.RANGE })) := by
      by_cases hm : c.POLL = m._expectedMsgId
      · simp [loopReceivedWith, hrecv, hrole, ht, hm.symm]
      · simp [loopReceivedWith, hrecv, hrole, ht, hm]
    rw [e1] at h
    cases h
    refine ⟨hrole, fun _ _ => ht, _, rfl, ?_, fun hr => absurd hr hne⟩
    simp [reportsRange, setByte, h2]
  · by_cases hr : env.data 0 = c.RANGE
    · by_cases hok : m._expectedMsgId = c.RANGE ∧ m._protocolFailed = false
      · have e1 : loopReceivedWith corr c p env m
            = (anchorRangeOkWith corr c p env
                { m with _receivedAck := false, data := env.data,
                         networkDevice :=
                           { m.networkDevice with timeRangeReceived := env.receiveTimestamp },
                         _expectedMsgId := c.POLL }).map (noteActivity env) := by
          simp [loopReceivedWith, hrecv, hrole, hr, h1, hok.1, hok.2]
        rw [e1] at h
        unfold anchorRangeOkWith at h
        cases hc : corr env.pulseFrequency (p.fval env.receivePower) with
        | none =>
          simp [computeRangeAsymmetric, hc] at h
        | some b =>
          simp only [computeRangeAsymmetric, hc, Option.bind_some, Option.map_some'] at h
          cases h
          refine ⟨?_, ?_, ?_⟩
          · rw [(noteActivity_frame env _).1, (report_frame c _).1]
            exact hrole
          · intro hx
            exfalso
            rw [(noteActivity_frame env _).2.1, (report_frame c _).2.1] at hx
            exact h1 hx.symm
          · exact ⟨_, ((noteActivity_frame env _).2.2).trans (report_frame c _).2.2,
              fun _ => ⟨hr, hok.1, hok.2⟩, fun _ hn => absurd hok hn⟩
      · have e1 : loopReceivedWith corr c p env m
            = some (noteActivity env (transmitRangeFailed c
                { m with _receivedAck := false, data := env.data, _protocolFailed := true,
                         networkDevice :=
                           { m.networkDevice with timeRangeReceived := env.receiveTimestamp },
                         _expectedMsgId := c.POLL })) := by
          by_cases hm : c.RANGE = m._expectedMsgId
          · have hf : m._protocolFailed = true := by
              cases hpf : m._protocolFailed
              · exact absurd ⟨hm.symm, hpf⟩ hok
              · rfl
            simp [loopReceivedWith, hrecv, hrole, hr, h1, hm.symm, hf]
          · simp [loopReceivedWith, hrecv, hrole, hr, h1, hm]
        rw [e1] at h
        cases h
        refine ⟨hrole, fun hx => absurd hx (fun e => h1 e.symm), _, rfl, ?_, fun _ _ => ⟨rfl, ?_⟩⟩
        · simp [reportsRange, setByte, h3]
        · simp [noteActivity, transmitRangeFailed, transmit, setByte]
    · have e1 : loopReceivedWith corr c p env m
          = some { m with _receivedAck := false, data := env.data,
                          _protocolFailed :=
                            if env.data 0 ≠ m._expectedMsgId then true else m._protocolFailed } := by
        by_cases hm : env.data 0 = m._expectedMsgId
        · have ht2 : ¬ m._expectedMsgId = c.POLL := fun e => ht (hm.trans e)
          have hr2 : ¬ m._expectedMsgId = c.RANGE := fun e => hr (hm.trans e)
          simp [loopReceivedWith, hrecv, hrole, hm, ht2, hr2]
        · simp [loopReceivedWith, hrecv, hrole, hr, ht, hm]
      rw [e1] at h
      cases h
      refine ⟨hrole, ?_, [], by simp, by simp [reportsRange], fun h' => absurd h' hr⟩
      intro hx hf
      exfalso
      have hm : env.data 0 ≠ m._expectedMsgId := by
        intro e
        exact hr (e.trans hx)
      simp [hm] at hf

theorem raise_frame (e : Pass T) (s : Engine T) :
    (raise e s)._type = s._type
      ∧ (raise e s)._expectedMsgId = s._expectedMsgId
      ∧ (raise e s)._protocolFailed = s._protocolFailed
      ∧ (raise e s).calls = s.calls := by
  unfold raise
  cases e.sent <;> cases e.received <;> exact ⟨rfl, rfl, rfl, rfl⟩

theorem anchor_pass (corr : Byte → ℚ → Option ℚ) (c : Consts) (p : Platform T)
    (env : Env T) (s0 s1 : Engine T) (h1 : c.RANGE ≠ c.POLL)
    (h2 : c.POLL_ACK ≠ c.RANGE_REPORT) (h3 : c.RANGE_FAILED ≠ c.RANGE_REPORT)
    (hrole : s0._type = c.ANCHOR) (hpass : loopWith corr c p env s0 = some s1) :
    s1._type = c.ANCHOR
      ∧ (∀ g : Bool, (s0._expectedMsgId = c.RANGE → s0._protocolFailed = false → g = true) →
          s1._expectedMsgId = c.RANGE → s1._protocolFailed = false →
          trackPoll c env s0 g = true)
      ∧ ∃ suffix, s1.calls = s0.calls ++ suffix
          ∧ (reportsRange c suffix = true →
              s0._receivedAck = true ∧ env.data 0 = c.RANGE
                ∧ s0._expectedMsgId = c.RANGE ∧ s0._protocolFailed = false)
          ∧ (s0._receivedAck = true → env.data 0 = c.RANGE →
              ¬ (s0._expectedMsgId = c.RANGE ∧ s0._protocolFailed = false) →
              suffix = [Call.newTransmit, Call.setDefaults, Call.setData s1.data,
                        Call.startTransmit]
                ∧ s1.data 0 = c.RANGE_FAILED) := by
  by_cases hrecv : s0._receivedAck = true
  · have hnf : resetFires env s0 = false := by simp [resetFires, hrecv]
    have hc : checkForReset c env s0 = s0 := by rw [checkForReset_eq, hnf]; rfl
    unfold loopWith at hpass
    rw [hc] at hpass
    obtain ⟨f1, f2, f3, f4, f5⟩ := loopSent_frame c env s0
    obtain ⟨a1, a2, suffix, a3, a4, a5⟩ :=
      anchor_received corr c p env (loopSent c env s0) s1 h1 h2 h3 (f1.trans hrole)
        (f4.trans hrecv) hpass
    rw [f2, f3] at a4 a5
    rw [f5] at a3
    refine ⟨a1, ?_, suffix, a3, fun hx => ⟨hrecv, a4 hx⟩, fun _ => a5⟩
    intro g _ hx hf
    simp [trackPoll, hnf, hrecv, a2 hx hf]
  · have hrecv2 : s0._receivedAck = false := by
      cases hh : s0._receivedAck
      · rfl
      · exact absurd hh hrecv
    by_cases hf : resetFires env s0 = true
    · have hc : checkForReset c env s0
          = noteActivity env (receiver { s0 with _expectedMsgId := c.POLL }) := by
        rw [checkForReset_eq, hf]
        simp [resetInactive, hrole]
      unfold loopWith at hpass
      rw [hc] at hpass
      obtain ⟨f1, f2, f3, f4, f5⟩ := loopSent_frame c env
        (noteActivity env (receiver { s0 with _expectedMsgId := c.POLL }))
      have hm : (loopSent c env
          (noteActivity env (receiver { s0 with _expectedMsgId := c.POLL })))._receivedAck
            = false := f4.trans hrecv2
      simp only [loopReceivedWith, hm] at hpass
      cases hpass
      refine ⟨f1.trans hrole, ?_, _, f5, ?_, fun hx => absurd hx hrecv⟩
      · intro g _ hx
        exact absurd (f2.symm.trans hx) (fun e => h1 e.symm)
      · simp [reportsRange]
    · have hf2 : resetFires env s0 = false := by
        cases hh : resetFires env s0
        · rfl
        · exact absurd hh hf
      have hc : checkForReset c env s0 = s0 := by rw [checkForReset_eq, hf2]; rfl
      unfold loopWith at hpass
      rw [hc] at hpass
      obtain ⟨f1, f2, f3, f4, f5⟩ := loopSent_frame c env s0
      have hm : (loopSent c env s0)._receivedAck = false := f4.trans hrecv2
      simp only [loopReceivedWith, hm] at hpass
      cases hpass
      refine ⟨f1.trans hrole, ?_, [], by simp [f5], by simp [reportsRange],
        fun hx => absurd hx hrecv⟩
      intro g hg hx hfl
      rw [f2] at hx
      rw [f3] at hfl
      simp [trackPoll, hf2, hrecv2, hg hx hfl]

theorem runWith_inv (corr : Byte → ℚ → Option ℚ) (c : Consts) (p : Platform T)
    (h1 : c.RANGE ≠ c.POLL) (h2 : c.POLL_ACK ≠ c.RANGE_REPORT)
    (h3 : c.RANGE_FAILED ≠ c.RANGE_REPORT) :
    ∀ (es : List (Pass T)) (s0 : Engine T) (g0 : Bool) (s : Engine T) (g : Bool),
      s0._type = c.ANCHOR →
      (s0._expectedMsgId = c.RANGE → s0._protocolFailed = false → g0 = true) →
      runWith corr c p es (s0, g0) = some (s, g) →
      s._type = c.ANCHOR
        ∧ (s._expectedMsgId = c.RANGE → s._protocolFailed = false → g = true) := by
  intro es
  induction es with
  | nil =>
    intro s0 g0 s g hrole hinv hrun
    simp only [runWith, Option.some.injEq, Prod.mk.injEq] at hrun
    obtain ⟨rfl, rfl⟩ := hrun
    exact ⟨hrole, hinv⟩
  | cons e es ih =>
    intro s0 g0 s g hrole hinv hrun
    obtain ⟨r1, r2, r3, _⟩ := raise_frame e s0
    cases hl : loopWith corr c p e.env (raise e s0) with
    | none => simp [runWith, hl] at hrun
    | some s1 =>
      simp only [runWith, hl] at hrun
      obtain ⟨a1, a2, _⟩ := anchor_pass corr c p e.env (raise e s0) s1 h1 h2 h3
        (r1.trans hrole) hl
      refine ih s1 (trackPoll c e.env (raise e s0) g0) s g a1 ?_ hrun
      apply a2 g0
      rw [r2, r3]
      exact hinv

/-- Claim C19: with `RANGE ≠ POLL`, `POLL_ACK ≠ RANGE_REPORT` and
`RANGE_FAILED ≠ RANGE_REPORT`, take an Anchor state whose history flag `g0`
(the most recent processed frame was a `POLL`, with no watchdog reset since)
holds whenever the state awaits `RANGE` with no failure flagged, any sequence
of passes from it, and one more pass with a result.  The calls of that pass
contain a payload tagged `RANGE_REPORT` or a handler invocation only if the
pass processes a received `RANGE` frame and the history flag holds; when the
pass processes a `RANGE` frame and the flag does not hold, it transmits
exactly one frame, tagged `RANGE_FAILED`, and nothing else.  This holds
whatever the call `rangeRXCorrection(...)` hands back (`corr`), the source's
own `loop` being the instance of the last conjunct. -/
theorem anchor_report_only_after_poll (corr : Byte → ℚ → Option ℚ) (c : Consts)
    (p : Platform T) (h1 : c.RANGE ≠ c.POLL) (h2 : c.POLL_ACK ≠ c.RANGE_REPORT)
    (h3 : c.RANGE_FAILED ≠ c.RANGE_REPORT) (es : List (Pass T)) (s0 : Engine T) (g0 : Bool)
    (hrole : s0._type = c.ANCHOR)
    (hinit : s0._expectedMsgId = c.RANGE → s0._protocolFailed = false → g0 = true)
    (s : Engine T) (g : Bool) (hrun : runWith corr c p es (s0, g0) = some (s, g))
    (e : Pass T) (s1 : Engine T) (hpass : loopWith corr c p e.env (raise e s) = some s1) :
    ∃ suffix, s1.calls = s.calls ++ suffix
      ∧ (reportsRange c suffix = true →
          (raise e s)._receivedAck = true ∧ e.env.data 0 = c.RANGE ∧ g = true)
      ∧ ((raise e s)._receivedAck = true → e.env.data 0 = c.RANGE → g = false →
          suffix = [Call.newTransmit, Call.setDefaults, Call.setData s1.data,
                    Call.startTransmit]
            ∧ s1.data 0 = c.RANGE_FAILED
            ∧ reportsRange c suffix = false)
      ∧ loopWith (rangeRXCorrection c.TX_PULSE_FREQ_16MHZ c.TX_PULSE_FREQ_64MHZ) c p e.env
            (raise e s)
          = loop c p e.env (raise e s) := by
  obtain ⟨i1, i2⟩ := runWith_inv corr c p h1 h2 h3 es s0 g0 s g hrole hinit hrun
  obtain ⟨r1, r2, r3, r4⟩ := raise_frame e s
  obtain ⟨_, _, suffix, a3, a4, a5⟩ :=
    anchor_pass corr c p e.env (raise e s) s1 h1 h2 h3 (r1.trans i1) hpass
  rw [r2, r3] at a4 a5
  rw [r4] at a3
  refine ⟨suffix, a3, ?_, ?_, rfl⟩
  · intro hx
    obtain ⟨b1, b2, b3, b4⟩ := a4 hx
    exact ⟨b1, b2, i2 b3 b4⟩
  · intro hrecv hr hg
    have hn : ¬ (s._expectedMsgId = c.RANGE ∧ s._protocolFailed = false) := by
      rintro ⟨b3, b4⟩
      rw [i2 b3 b4] at hg
      exact Bool.noConfusion hg
    obtain ⟨d1, d2⟩ := a5 hrecv hr hn
    refine ⟨d1, d2, ?_⟩
    rw [d1]
    simp [reportsRange, d2, h3]

theorem runWith_single (corr : Byte → ℚ → Option ℚ) (c : Consts) (p : Platform T)
    (e : Pass T) (s : Engine T) (g : Bool) (s1 : Engine T)
    (h : loopWith corr c p e.env (raise e s) = some s1) :
    runWith corr c p [e] (s, g) = some (s1, trackPoll c e.env (raise e s) g) := by
  simp only [runWith, h]

theorem loopWith_of_received_only (corr : Byte → ℚ → Option ℚ) (c : Consts)
    (p : Platform T) (env : Env T) (s : Engine T) (hsent : s._sentAck = false)
    (hrecv : s._receivedAck = true) :
    loopWith corr c p env s = loopReceivedWith corr c p env s := by
  simp [loopWith, checkForReset, loopSent, hsent, hrecv]

theorem anchor_poll_with (corr : Byte → ℚ → Option ℚ) (c : Consts) (p : Platform T)
    (env : Env T) (s : Engine T) (hrole : s._type = c.ANCHOR)
    (hrecv : s._receivedAck = true) (hframe : env.data 0 = c.POLL) :
    loopReceivedWith corr c p env s
      = some (noteActivity env (transmitPollAck c p
          { s with _receivedAck := false, data := env.data, _protocolFailed := false,
                   networkDevice :=
                     { s.networkDevice with timePollReceived := env.receiveTimestamp },
                   _expectedMsgId := c.RANGE })) := by
  by_cases hm : c.POLL = s._expectedMsgId
  · simp [loopReceivedWith, hrecv, hrole, hframe, hm.symm]
  · simp [loopReceivedWith, hrecv, hrole, hframe, hm]

theorem anchor_range_failed_with (corr : Byte → ℚ → Option ℚ) (c : Consts)
    (p : Platform T) (env : Env T) (s : Engine T) (htags : c.RANGE ≠ c.POLL)
    (hrole : s._type = c.ANCHOR) (hrecv : s._receivedAck = true)
    (hframe : env.data 0 = c.RANGE)
    (hnok : ¬ (s._expectedMsgId = c.RANGE ∧ s._protocolFailed = false)) :
    loopReceivedWith corr c p env s
      = some (noteActivity env (transmitRangeFailed c
          { s with _receivedAck := false, data := env.data, _protocolFailed := true,
                   networkDevice :=
                     { s.networkDevice with timeRangeReceived := env.receiveTimestamp },
                   _expectedMsgId := c.POLL })) := by
  by_cases hm : c.RANGE = s._expectedMsgId
  · have hf : s._protocolFailed = true := by
      cases hpf : s._protocolFailed
      · exact absurd ⟨hm.symm, hpf⟩ hnok
      · rfl
    simp [loopReceivedWith, hrecv, hrole, hframe, htags, hm.symm, hf]
  · simp [loopReceivedWith, hrecv, hrole, hframe, htags, hm]

theorem anchor_range_ok_with (corr : Byte → ℚ → Option ℚ) (c : Consts) (p : Platform T)
    (env : Env T) (s : Engine T) (b : ℚ) (htags : c.RANGE ≠ c.POLL)
    (hrole : s._type = c.ANCHOR) (hrecv : s._receivedAck = true)
    (hframe : env.data 0 = c.RANGE) (hexp : s._expectedMsgId = c.RANGE)
    (hok : s._protocolFailed = false)
    (hc : corr env.pulseFrequency (p.fval env.receivePower) = some b) :
    ∃ s1 suffix, loopReceivedWith corr c p env s = some s1
      ∧ s1.calls = s.calls ++ suffix
      ∧ reportsRange c suffix = true := by
  have e1 : loopReceivedWith corr c p env s
      = (anchorRangeOkWith corr c p env
          { s with _receivedAck := false, data := env.data,
                   networkDevice :=
                     { s.networkDevice with timeRangeReceived := env.receiveTimestamp },
                   _expectedMsgId := c.POLL }).map (noteActivity env) := by
    simp [loopReceivedWith, hrecv, hrole, hframe, htags, hexp, hok]
  rw [e1]
  unfold anchorRangeOkWith
  simp only [computeRangeAsymmetric, hc, Option.bind_some, Option.map_some']
  refine ⟨_, _, rfl, ((noteActivity_frame env _).2.2).trans (report_frame c _).2.2, ?_⟩
  simp [reportsRange, transmitRangeReport, transmit, memcpyInto, setByte]

/-- Instance of C19 on the sample platform with a bias correction that
returns `0`.  An Anchor awaiting `POLL` processes a `POLL` frame and then a
`RANGE` frame: the second pass reports a range, and the history flag holds.
The same Anchor processing a `RANGE` frame first, with the flag not holding,
transmits exactly one `RANGE_FAILED` frame. -/
theorem anchor_report_only_after_poll_witness :
    (∃ s s1 suffix,
        runWith zeroCorr sampleConsts samplePlatform [samplePass 1 0]
            (sampleEngine 1 0, false) = some (s, true)
          ∧ loopWith zeroCorr sampleConsts samplePlatform (samplePass 2 2).env
              (raise (samplePass 2 2) s) = some s1
          ∧ s1.calls = s.calls ++ suffix
          ∧ reportsRange sampleConsts suffix = true
          ∧ (raise (samplePass 2 2) s)._receivedAck = true
          ∧ (samplePass 2 2).env.data 0 = sampleConsts.RANGE)
      ∧ (∃ s1 suffix,
          loopWith zeroCorr sampleConsts samplePlatform (samplePass 2 2).env
              (raise (samplePass 2 2) (sampleEngine 1 0)) = some s1
            ∧ s1.calls = (sampleEngine 1 0).calls ++ suffix
            ∧ suffix = [Call.newTransmit, Call.setDefaults, Call.setData s1.data,
                        Call.startTransmit]
            ∧ s1.data 0 = sampleConsts.RANGE_FAILED
            ∧ reportsRange sampleConsts suffix = false) := by
  constructor
  · have hA : loopWith zeroCorr sampleConsts samplePlatform (samplePass 1 0).env
        (raise (samplePass 1 0) (sampleEngine 1 0)) = some afterPoll :=
      (loopWith_of_received_only zeroCorr _ _ _ _ rfl rfl).trans
        (anchor_poll_with zeroCorr sampleConsts samplePlatform (samplePass 1 0).env
          (raise (samplePass 1 0) (sampleEngine 1 0)) rfl rfl rfl)
    have hrun : runWith zeroCorr sampleConsts samplePlatform [samplePass 1 0]
        (sampleEngine 1 0, false) = some (afterPoll, true) :=
      runWith_single zeroCorr sampleConsts samplePlatform (samplePass 1 0) (sampleEngine 1 0)
        false afterPoll hA
    obtain ⟨s1, suffix, hB, hcalls, hrep⟩ :=
      anchor_range_ok_with zeroCorr sampleConsts samplePlatform (samplePass 2 2).env
        (raise (samplePass 2 2) afterPoll) 0 (by decide) rfl rfl rfl rfl rfl rfl
    rw [← loopWith_of_received_only zeroCorr _ _ _ (raise (samplePass 2 2) afterPoll)
      rfl rfl] at hB
    obtain ⟨suffix2, w1, w2, _, _⟩ :=
      anchor_report_only_after_poll zeroCorr sampleConsts samplePlatform
        (by decide) (by decide) (by decide) [samplePass 1 0] (sampleEngine 1 0) false rfl
        (fun h => absurd h (by decide)) afterPoll true hrun (samplePass 2 2) s1 hB
    have hcalls2 : s1.calls = afterPoll.calls ++ suffix := hcalls
    have hs : suffix2 = suffix := List.append_cancel_left (w1.symm.trans hcalls2)
    rw [hs] at w2
    exact ⟨afterPoll, s1, suffix, hrun, hB, hcalls2, hrep, (w2 hrep).1, (w2 hrep).2.1⟩
  · have hB := anchor_range_failed_with zeroCorr sampleConsts samplePlatform
      (samplePass 2 2).env (raise (samplePass 2 2) (sampleEngine 1 0)) (by decide) rfl rfl rfl
      (fun h => absurd h.1 (by decide))
    rw [← loopWith_of_received_only zeroCorr _ _ _ _ rfl rfl] at hB
    obtain ⟨suffix, w1, _, w3, _⟩ :=
      anchor_report_only_after_poll zeroCorr sampleConsts samplePlatform
        (by decide) (by decide) (by decide) [] (sampleEngine 1 0) false rfl
        (fun h => absurd h (by decide)) _ false rfl (samplePass 2 2) _ hB
    obtain ⟨w4, w5, w6⟩ := w3 rfl rfl rfl
    exact ⟨_, suffix, hB, w1, w4, w5, w6⟩

/-! ## Monotonicity and bounds of the bias curves -/

theorem computeRangeBias_16_eq (x : ℚ) : computeRangeBias_16 x = biasCurve _bias_PRF_16 x := rfl

theorem computeRangeBias_64_eq (x : ℚ) : computeRangeBias_64 x = biasCurve _bias_PRF_64 x := rfl

theorem bias_PRF_16_mono (a b : Nat) (hab : a ≤ b) (hb : b ≤ 16) :
    at_ _bias_PRF_16 a ≤ at_ _bias_PRF_16 b := by
  have h : ∀ a : Fin 17, ∀ b : Fin 17, a ≤ b →
      _bias_PRF_16.getD a.val 0 ≤ _bias_PRF_16.getD b.val 0 := by decide
  have := h ⟨a, by omega⟩ ⟨b, by omega⟩ hab
  unfold at_
  exact_mod_cast this

theorem bias_PRF_64_mono (a b : Nat) (hab : a ≤ b) (hb : b ≤ 16) :
    at_ _bias_PRF_64 a ≤ at_ _bias_PRF_64 b := by
  have h : ∀ a : Fin 17, ∀ b : Fin 17, a ≤ b →
      _bias_PRF_64.getD a.val 0 ≤ _bias_PRF_64.getD b.val 0 := by decide
  have := h ⟨a, by omega⟩ ⟨b, by omega⟩ hab
  unfold at_
  exact_mod_cast this

theorem biasLoop_some_index (prf : List Int) (x v : ℚ) :
    ∀ n i, biasLoop prf x n i = some v →
      ∃ k, i ≤ k ∧ k < i + n ∧ at_ _bias_RSL k < x ∧ x < at_ _bias_RSL (k - 1) := by
  intro n
  induction n with
  | zero => intro i h; simp [biasLoop] at h
  | succ n ih =>
    intro i h
    by_cases hc : x < at_ _bias_RSL (i - 1) ∧ x > at_ _bias_RSL i
    · exact ⟨i, le_refl i, by omega, hc.2, hc.1⟩
    · simp only [biasLoop, if_neg hc] at h
      obtain ⟨k, h1, h2, h3, h4⟩ := ih (i + 1) h
      exact ⟨k, by omega, by omega, h3, h4⟩

theorem biasCurve_cases (prf : List Int) (x v : ℚ) (h : biasCurve prf x = some v) :
    (at_ _bias_RSL 0 ≤ x ∧ v = at_ prf 0 / 1000)
      ∨ (x ≤ at_ _bias_RSL 16 ∧ v = at_ prf 16 / 1000)
      ∨ ∃ k, 1 ≤ k ∧ k ≤ 16 ∧ at_ _bias_RSL k < x ∧ x < at_ _bias_RSL (k - 1)
          ∧ v = specInterpolate prf k x := by
  unfold biasCurve at h
  by_cases h0 : x ≥ at_ _bias_RSL 0
  · simp only [if_pos h0, Option.some.injEq] at h
    exact Or.inl ⟨h0, h.symm⟩
  · by_cases h16 : x ≤ at_ _bias_RSL 16
    · simp only [if_neg h0, if_pos h16, Option.some.injEq] at h
      exact Or.inr (Or.inl ⟨h16, h.symm⟩)
    · simp only [if_neg h0, if_neg h16] at h
      obtain ⟨k, k1, k2, k3, k4⟩ := biasLoop_some_index prf x v 16 1 h
      have hk16 : k ≤ 16 := by omega
      have e := biasLoop_interpolates prf x k k1 hk16 k3 k4
      rw [h] at e
      exact Or.inr (Or.inr ⟨k, k1, hk16, k3, k4, Option.some.inj e⟩)

theorem specInterpolate_between (prf : List Int) (k : Nat) (x : ℚ) (k1 : 1 ≤ k) (k16 : k ≤ 16)
    (hmono : at_ prf (k - 1) ≤ at_ prf k)
    (hlo : at_ _bias_RSL k < x) (hhi : x < at_ _bias_RSL (k - 1)) :
    at_ prf (k - 1) / 1000 ≤ specInterpolate prf k x
      ∧ specInterpolate prf k x ≤ at_ prf k / 1000 := by
  have hA := bias_RSL_closed_form k k16
  have hB := bias_RSL_closed_form (k - 1) (by omega)
  have hcast : ((k - 1 : Nat) : ℚ) = (k : ℚ) - 1 := by
    rw [Nat.cast_sub k1]; simp
  rw [hA] at hlo
  rw [hB, hcast] at hhi
  have e : specInterpolate prf k x
      = (at_ prf (k - 1) + (at_ prf k - at_ prf (k - 1)) * ((-61 - 2 * ((k : ℚ) - 1) - x) / 2))
          / 1000 := by
    simp only [specInterpolate, hA, hB, hcast]
    congr 1
    ring
  rw [e]
  have ht0 : 0 ≤ (-61 - 2 * ((k : ℚ) - 1) - x) / 2 := by linarith
  have ht1 : (-61 - 2 * ((k : ℚ) - 1) - x) / 2 ≤ 1 := by linarith
  have hd : 0 ≤ at_ prf k - at_ prf (k - 1) := by linarith
  have hm0 := mul_nonneg hd ht0
  have hm1 := mul_le_of_le_one_right hd ht1
  constructor
  · apply div_le_div_of_nonneg_right _ (by norm_num)
    linarith
  · apply div_le_div_of_nonneg_right _ (by norm_num)
    linarith

theorem biasCurve_bounds (prf : List Int)
    (hmono : ∀ a b, a ≤ b → b ≤ 16 → at_ prf a ≤ at_ prf b) (x v : ℚ)
    (h : biasCurve prf x = some v) :
    at_ prf 0 / 1000 ≤ v ∧ v ≤ at_ prf 16 / 1000 := by
  have h016 : at_ prf 0 / 1000 ≤ at_ prf 16 / 1000 :=
    div_le_div_of_nonneg_right (hmono 0 16 (by omega) (by omega)) (by norm_num)
  rcases biasCurve_cases prf x v h with ⟨_, hv⟩ | ⟨_, hv⟩ | ⟨k, k1, k16, hlo, hhi, hv⟩
  · rw [hv]; exact ⟨le_refl _, h016⟩
  · rw [hv]; exact ⟨h016, le_refl _⟩
  · obtain ⟨b1, b2⟩ :=
      specInterpolate_between prf k x k1 k16 (hmono (k - 1) k (by omega) k16) hlo hhi
    rw [hv]
    constructor
    · exact le_trans
        (div_le_div_of_nonneg_right (hmono 0 (k - 1) (by omega) (by omega)) (by norm_num)) b1
    · exact le_trans b2
        (div_le_div_of_nonneg_right (hmono k 16 k16 (by omega)) (by norm_num))

theorem biasCurve_antitone (prf : List Int)
    (hmono : ∀ a b, a ≤ b → b ≤ 16 → at_ prf a ≤ at_ prf b) (x y vx vy : ℚ)
    (hxy : x ≤ y) (hx : biasCurve prf x = some vx) (hy : biasCurve prf y = some vy) :
    vy ≤ vx := by
  have hZ := bias_RSL_closed_form 0 (by omega)
  have hL := bias_RSL_closed_form 16 (by omega)
  push_cast at hZ hL
  rcases biasCurve_cases prf y vy hy with ⟨_, hvy⟩ | ⟨hy16, hvy⟩ | ⟨k, k1, k16, hlo, hhi, hvy⟩
  · rw [hvy]
    exact (biasCurve_bounds prf hmono x vx hx).1
  · rcases biasCurve_cases prf x vx hx with ⟨hx0, _⟩ | ⟨_, hvx⟩ | ⟨i, i1, i16, ilo, _, _⟩
    · rw [hZ] at hx0
      rw [hL] at hy16
      linarith
    · rw [hvy, hvx]
    · have hA := bias_RSL_closed_form i i16
      have hi : (i : ℚ) ≤ 16 := by exact_mod_cast i16
      rw [hA] at ilo
      rw [hL] at hy16
      linarith
  · have hkA := bias_RSL_closed_form k k16
    have hkB := bias_RSL_closed_form (k - 1) (by omega)
    have hkcast : ((k - 1 : Nat) : ℚ) = (k : ℚ) - 1 := by
      rw [Nat.cast_sub k1]; simp
    have hk1 : (1 : ℚ) ≤ (k : ℚ) := by exact_mod_cast k1
    obtain ⟨_, yb2⟩ :=
      specInterpolate_between prf k y k1 k16 (hmono (k - 1) k (by omega) k16) hlo hhi
    rcases biasCurve_cases prf x vx hx with ⟨hx0, _⟩ | ⟨_, hvx⟩ | ⟨i, i1, i16, ilo, ihi, hvx⟩
    · rw [hZ] at hx0
      rw [hkB, hkcast] at hhi
      linarith
    · rw [hvx]
      exact (biasCurve_bounds prf hmono y vy hy).2
    · have hiA := bias_RSL_closed_form i i16
      have hiB := bias_RSL_closed_form (i - 1) (by omega)
      have hicast : ((i - 1 : Nat) : ℚ) = (i : ℚ) - 1 := by
        rw [Nat.cast_sub i1]; simp
      have hki : k ≤ i := by
        have h1 : (k : ℚ) - 1 < (i : ℚ) := by
          rw [hiA] at ilo
          rw [hkB, hkcast] at hhi
          linarith
        have h2 : (k : ℚ) < (i : ℚ) + 1 := by linarith
        have h3 : k < i + 1 := by exact_mod_cast h2
        omega
      by_cases hik : i = k
      · subst hik
        rw [hvx, hvy]
        have hd : 0 ≤ at_ prf i - at_ prf (i - 1) := by
          have := hmono (i - 1) i (by omega) i16
          linarith
        have hm := mul_nonneg hd (sub_nonneg.mpr hxy)
        simp only [specInterpolate, hiA, hiB, hicast]
        have e2 : (-61 - 2 * ((i : ℚ) - 1) - (-61 - 2 * (i : ℚ))) = 2 := by ring
        rw [e2]
        apply div_le_div_of_nonneg_right _ (by norm_num)
        linarith
      · obtain ⟨xb1, _⟩ :=
          specInterpolate_between prf i x i1 i16 (hmono (i - 1) i (by omega) i16) ilo ihi
        rw [hvx, hvy]
        have hmid : at_ prf k / 1000 ≤ at_ prf (i - 1) / 1000 :=
          div_le_div_of_nonneg_right (hmono k (i - 1) (by omega) (by omega)) (by norm_num)
        exact le_trans yb2 (le_trans hmid xb1)

/-- Claim C20: over exact rationals, on the inputs where a lookup returns a
value, each bias curve is non-increasing in the receive power (a weaker signal
never gets a smaller correction) and lies between the two clamp values,
`-0.198 ≤ computeRangeBias_16 x ≤ 0.110` and
`-0.110 ≤ computeRangeBias_64 x ≤ 0.081`; both correction tables are strictly
increasing in the index. -/
theorem computeRangeBias_monotone_bounded :
    (∀ x y vx vy : ℚ, x ≤ y → computeRangeBias_16 x = some vx →
        computeRangeBias_16 y = some vy → vy ≤ vx)
      ∧ (∀ x y vx vy : ℚ, x ≤ y → computeRangeBias_64 x = some vx →
        computeRangeBias_64 y = some vy → vy ≤ vx)
      ∧ (∀ x v : ℚ, computeRangeBias_16 x = some v → -198 / 1000 ≤ v ∧ v ≤ 110 / 1000)
      ∧ (∀ x v : ℚ, computeRangeBias_64 x = some v → -110 / 1000 ≤ v ∧ v ≤ 81 / 1000)
      ∧ List.Pairwise (fun a b => a < b) _bias_PRF_16
      ∧ List.Pairwise (fun a b => a < b) _bias_PRF_64 := by
  refine ⟨?_, ?_, ?_, ?_, by decide, by decide⟩
  · intro x y vx vy hxy hx hy
    exact biasCurve_antitone _ bias_PRF_16_mono x y vx vy hxy hx hy
  · intro x y vx vy hxy hx hy
    exact biasCurve_antitone _ bias_PRF_64_mono x y vx vy hxy hx hy
  · intro x v hx
    have h := biasCurve_bounds _ bias_PRF_16_mono x v hx
    have e0 : at_ _bias_PRF_16 0 = -198 := by norm_num [at_, _bias_PRF_16]
    have e16 : at_ _bias_PRF_16 16 = 110 := by norm_num [at_, _bias_PRF_16]
    rw [e0, e16] at h
    exact h
  · intro x v hx
    have h := biasCurve_bounds _ bias_PRF_64_mono x v hx
    have e0 : at_ _bias_PRF_64 0 = -110 := by norm_num [at_, _bias_PRF_64]
    have e16 : at_ _bias_PRF_64 16 = 81 := by norm_num [at_, _bias_PRF_64]
    rw [e0, e16] at h
    exact h

theorem computeRangeBias_samples :
    computeRangeBias_16 (-62) = some (-1925 / 10000)
      ∧ computeRangeBias_16 (-50) = some (-198 / 1000)
      ∧ computeRangeBias_64 (-62) = some (-1075 / 10000)
      ∧ computeRangeBias_64 (-50) = some (-110 / 1000) := by
  refine ⟨?_, ?_, ?_, ?_⟩
  · norm_num [computeRangeBias_16, biasLoop, at_, _bias_RSL, _bias_PRF_16]
  · norm_num [computeRangeBias_16, biasLoop, at_, _bias_RSL, _bias_PRF_16]
  · norm_num [computeRangeBias_64, biasLoop, at_, _bias_RSL, _bias_PRF_64]
  · norm_num [computeRangeBias_64, biasLoop, at_, _bias_RSL, _bias_PRF_64]

/-- Instance of C20 at the inputs `-62 ≤ -50`: the corrections `-0.1925` and
`-0.198` of PRF 16 and `-0.1075` and `-0.110` of PRF 64 are ordered the other
way round and lie between the clamp values. -/
theorem computeRangeBias_monotone_bounded_witness :
    computeRangeBias_16 (-62) = some (-1925 / 10000)
      ∧ computeRangeBias_16 (-50) = some (-198 / 1000)
      ∧ (-198 / 1000 : ℚ) ≤ -1925 / 10000
      ∧ ((-198 / 1000 : ℚ) ≤ -1925 / 10000 ∧ (-1925 / 10000 : ℚ) ≤ 110 / 1000)
      ∧ computeRangeBias_64 (-62) = some (-1075 / 10000)
      ∧ computeRangeBias_64 (-50) = some (-110 / 1000)
      ∧ (-110 / 1000 : ℚ) ≤ -1075 / 10000
      ∧ ((-110 / 1000 : ℚ) ≤ -1075 / 10000 ∧ (-1075 / 10000 : ℚ) ≤ 81 / 1000) :=
  ⟨computeRangeBias_samples.1, computeRangeBias_samples.2.1,
   computeRangeBias_monotone_bounded.1 (-62) (-50) _ _ (by norm_num)
     computeRangeBias_samples.1 computeRangeBias_samples.2.1,
   computeRangeBias_monotone_bounded.2.2.1 (-62) _ computeRangeBias_samples.1,
   computeRangeBias_samples.2.2.1, computeRangeBias_samples.2.2.2,
   computeRangeBias_monotone_bounded.2.1 (-62) (-50) _ _ (by norm_num)
     computeRangeBias_samples.2.2.1 computeRangeBias_samples.2.2.2,
   computeRangeBias_monotone_bounded.2.2.2.1 (-62) _ computeRangeBias_samples.2.2.1⟩

/-! ## Watchdog across a clock rollover -/

/-- Claim C21: let `_lastActivity` hold the 32-bit clock value recorded at true
time `tL` and let the clock now show the 32-bit value of true time `tL + e`
with `e < 2^32`, a rollover in between or not, the signed `curMillis` negative
or not.  With neither flag set the difference `checkForReset` compares with
`_resetPeriod` is `e` itself, so the reset fires exactly when
`e > _resetPeriod`. -/
theorem checkForReset_rollover_safe (c : Consts) (env : Env T) (s : Engine T) (tL e : Nat)
    (hsent : s._sentAck = false) (hrecv : s._receivedAck = false)
    (hlast : s._lastActivity = tL % 2 ^ 32) (hnow : env.millis = (tL + e) % 2 ^ 32)
    (he : e < 2 ^ 32) :
    toULong (toLong env.millis - (s._lastActivity : Int)) = e
      ∧ elapsed32 env.millis s._lastActivity = e
      ∧ (resetFires env s = true ↔ s._resetPeriod < e)
      ∧ (s._resetPeriod < e → checkForReset c env s = resetInactive c env s)
      ∧ (e ≤ s._resetPeriod → checkForReset c env s = s) := by
  have hel : elapsed32 env.millis s._lastActivity = e := by
    rw [hlast, hnow]
    unfold elapsed32
    omega
  have hdiff : toULong (toLong env.millis - (s._lastActivity : Int)) = e := by
    rw [toULong_toLong_sub, hel]
  have hfire : resetFires env s = true ↔ s._resetPeriod < e := by
    simp [resetFires, hsent, hrecv, hdiff]
  refine ⟨hdiff, hel, hfire, ?_, ?_⟩
  · intro h
    rw [checkForReset_eq, hfire.mpr h]
    rfl
  · intro h
    have hn : resetFires env s = false := by
      cases hh : resetFires env s
      · rfl
      · exact absurd (hfire.mp hh) (Nat.not_lt.mpr h)
    rw [checkForReset_eq, hn]
    rfl

/-- Instance of C21 with `_resetPeriod = 500`.  The activity is recorded at
clock value `2^32 - 100`; `601` ms later the clock has rolled over to `501`
and the reset fires, `400` ms later it shows `300` and no reset happens.
Recorded at `2^31 - 100`, the clock `601` ms later shows `2^31 + 501`, which is
negative as a `long`, and the reset fires. -/
theorem checkForReset_rollover_safe_witness :
    (noteActivity (sampleEnv 4294967196 0) (sampleEngine 1 0))._lastActivity = 4294967196
      ∧ checkForReset sampleConsts (sampleEnv 501 0)
            (noteActivity (sampleEnv 4294967196 0) (sampleEngine 1 0))
          = resetInactive sampleConsts (sampleEnv 501 0)
              (noteActivity (sampleEnv 4294967196 0) (sampleEngine 1 0))
      ∧ checkForReset sampleConsts (sampleEnv 300 0)
            (noteActivity (sampleEnv 4294967196 0) (sampleEngine 1 0))
          = noteActivity (sampleEnv 4294967196 0) (sampleEngine 1 0)
      ∧ toLong (sampleEnv 2147484149 0).millis < 0
      ∧ checkForReset sampleConsts (sampleEnv 2147484149 0)
            (noteActivity (sampleEnv 2147483548 0) (sampleEngine 1 0))
          = resetInactive sampleConsts (sampleEnv 2147484149 0)
              (noteActivity (sampleEnv 2147483548 0) (sampleEngine 1 0)) :=
  ⟨rfl,
   (checkForReset_rollover_safe sampleConsts (sampleEnv 501 0)
      (noteActivity (sampleEnv 4294967196 0) (sampleEngine 1 0)) 4294967196 601
      rfl rfl rfl (by decide) (by decide)).2.2.2.1 (by decide),
   (checkForReset_rollover_safe sampleConsts (sampleEnv 300 0)
      (noteActivity (sampleEnv 4294967196 0) (sampleEngine 1 0)) 4294967196 400
      rfl rfl rfl (by decide) (by decide)).2.2.2.2 (by decide),
   by decide,
   (checkForReset_rollover_safe sampleConsts (sampleEnv 2147484149 0)
      (noteActivity (sampleEnv 2147483548 0) (sampleEngine 1 0)) 2147483548 601
      rfl rfl rfl (by decide) (by decide)).2.2.2.1 (by decide)⟩

end DW1000Ranging
